import Mathlib

/-!
# Shallow embedding of the OBV Hyderabad valuation engine

This file embeds, in Lean 4, the algorithmic core of the vehicle-valuation
repository: `src/obv_hyderabad_engine.py` (segmented depreciation, odometer
adjustment, 16-point condition scoring, transaction prices, valuation
orchestrator) and `src/historical_price_database.py` (on-road price
calculation).  Python floats are modelled by `ℚ`, Python ints by `ℤ`, Python
strings by `String`; the mutable per-engine `warnings`/`recommendations`
lists are modelled by explicit message lists carried through the state.
Theorems at the bottom settle the specification claims.
-/

namespace OBV

/-- Fuel type enumeration (`class FuelType` in `obv_hyderabad_engine.py`). -/
inductive FuelType
  | petrol
  | diesel
  | cng
  | electric
deriving DecidableEq, Repr

/-- Condition grade enumeration (`class ConditionGrade`). -/
inductive ConditionGrade
  | excellent
  | veryGood
  | good
  | fair
deriving DecidableEq, Repr

/-- `STANDARD_MILEAGE`: standard annual mileage by fuel type (km/year). -/
def STANDARD_MILEAGE : FuelType → ℤ
  | .petrol => 11000
  | .diesel => 16500
  | .cng => 20000
  | .electric => 11000

/-- `DEPRECIATION_RATES['year_0_1']` = 17% for the first year. -/
def rate_year_0_1 : ℚ := 17/100

/-- `DEPRECIATION_RATES['year_1_3']` = 11% per year for years 1-3. -/
def rate_year_1_3 : ℚ := 11/100

/-- `DEPRECIATION_RATES['year_3_5']` = 9% per year for years 3-5. -/
def rate_year_3_5 : ℚ := 9/100

/-- `DEPRECIATION_RATES['year_5_plus']` = 6% per year for 5+ years. -/
def rate_year_5_plus : ℚ := 6/100

/-- Python `int(q)`: truncation toward zero of a rational. -/
def pyInt (q : ℚ) : ℤ :=
  if 0 ≤ q then ⌊q⌋ else -⌊-q⌋

/-- Python `round` to the nearest integer, ties to even (banker's rounding). -/
def roundHalfEven (q : ℚ) : ℤ :=
  let f := ⌊q⌋
  let r := q - (f : ℚ)
  if r < 1/2 then f
  else if 1/2 < r then f + 1
  else if f % 2 = 0 then f else f + 1

/-- Python `round(q, n)` on our exact-rational model of floats. -/
def pyRound (q : ℚ) (n : ℕ) : ℚ :=
  (roundHalfEven (q * 10 ^ n) : ℚ) / 10 ^ n

/-- One `for i in range(n)` pass of `remaining -= remaining * rate`
(the full-year depreciation loops inside `calculate_segmented_depreciation`),
also recording the per-year breakdown entries `year_<label>`, `year_<label+1>`, …. -/
def depFullYears (rate : ℚ) (label : ℕ) : ℕ → ℚ → ℚ × List (String × ℚ)
  | 0, v => (v, [])
  | n + 1, v =>
    let d := v * rate
    let rest := depFullYears rate (label + 1) n (v - d)
    (rest.1, ("year_" ++ toString label, d) :: rest.2)

/-- The fractional-year step of the source (guarded by `> 0`), with its
breakdown entry `year_<label>_partial`. -/
def depPartYear (rate : ℚ) (label : ℤ) (fracYear : ℚ) (v : ℚ) :
    ℚ × List (String × ℚ) :=
  if 0 < fracYear then
    (v - v * rate * fracYear,
      [("year_" ++ toString label ++ "_partial", v * rate * fracYear)])
  else (v, [])

/-- `calculate_segmented_depreciation(age_years, base_price)`
(lines 572-670 of `obv_hyderabad_engine.py`).
Returns `(remaining_value, breakdown, depreciation_percentage)`. -/
def calculate_segmented_depreciation (age_years base_price : ℚ) :
    ℚ × List (String × ℚ) × ℚ :=
  let result :=
    if age_years ≤ 1 then
      let depreciation := base_price * rate_year_0_1 * age_years
      (base_price - depreciation, [("year_0_1", depreciation)])
    else
      let year_1_dep := base_price * rate_year_0_1
      let v1 := base_price - year_1_dep
      let b1 := [("year_0_1", year_1_dep)]
      if age_years ≤ 3 then
        let years_in_bracket := age_years - 1
        let n := (pyInt years_in_bracket).toNat
        let full := depFullYears rate_year_1_3 2 n v1
        let fracYear := years_in_bracket - (pyInt years_in_bracket : ℚ)
        let fin := depPartYear rate_year_1_3 (pyInt years_in_bracket + 2)
          fracYear full.1
        (fin.1, b1 ++ full.2 ++ fin.2)
      else if age_years ≤ 5 then
        let full13 := depFullYears rate_year_1_3 2 2 v1
        let years_in_bracket := age_years - 3
        let n := (pyInt years_in_bracket).toNat
        let full35 := depFullYears rate_year_3_5 4 n full13.1
        let fracYear := years_in_bracket - (pyInt years_in_bracket : ℚ)
        let fin := depPartYear rate_year_3_5 (pyInt years_in_bracket + 4)
          fracYear full35.1
        (fin.1, b1 ++ full13.2 ++ full35.2 ++ fin.2)
      else
        let full13 := depFullYears rate_year_1_3 2 2 v1
        let full35 := depFullYears rate_year_3_5 4 2 full13.1
        let years_in_bracket := age_years - 5
        let n := (pyInt years_in_bracket).toNat
        let full5p := depFullYears rate_year_5_plus 6 n full35.1
        let fracYear := years_in_bracket - (pyInt years_in_bracket : ℚ)
        let fin := depPartYear rate_year_5_plus (pyInt years_in_bracket + 6)
          fracYear full5p.1
        (fin.1, b1 ++ full13.2 ++ full35.2 ++ full5p.2 ++ fin.2)
  let total_depreciation := base_price - result.1
  (result.1, result.2, total_depreciation / base_price * 100)

/-- The depreciated value only (first component). -/
def depreciatedValue (age_years base_price : ℚ) : ℚ :=
  (calculate_segmented_depreciation age_years base_price).1

/-- Closed form for the value after spending `t` years inside one bracket of
yearly rate `r`, starting from entry value `v`: full years compound, a final
fractional year is linear in the fraction. -/
def bracketVal (r t v : ℚ) : ℚ :=
  v * (1 - r) ^ (⌊t⌋.toNat) * (1 - r * (t - (⌊t⌋ : ℚ)))

/-- Entry value of the years-1-3 bracket: base price after the full first-year cut. -/
def entry13 (p : ℚ) : ℚ := p - p * rate_year_0_1

/-- Entry value of the years-3-5 bracket. -/
def entry35 (p : ℚ) : ℚ := entry13 p * (1 - rate_year_1_3) ^ 2

/-- Entry value of the years-5+ bracket. -/
def entry5p (p : ℚ) : ℚ := entry35 p * (1 - rate_year_3_5) ^ 2

/-- Python `str.lower()` restricted to the ASCII strings used by the engine. -/
def pyLower (s : String) : String := ⟨s.data.map Char.toLower⟩

/-- Contiguous-sublist test on character lists. -/
def listInfixOf (n : List Char) : List Char → Bool
  | [] => n.isEmpty
  | c :: t => n.isPrefixOf (c :: t) || listInfixOf n t

/-- Python `needle in hay` on strings (contiguous substring test). -/
def pyIn (needle hay : String) : Bool := listInfixOf needle.data hay.data

/-- Warning/recommendation messages.  Each constructor stands for one
`self.warnings.append(...)` / `self.recommendations.append(...)` site in the
source, carrying the dynamic data interpolated into the f-string there. -/
inductive Msg
  /-- Odometer tampering suspicion (line 700). -/
  | tamperSuspicion (actual_odometer : ℤ) (age_years : ℚ)
  /-- 100,000 km psychological-barrier warning (line 736). -/
  | barrier100k
  /-- Low-mileage premium recommendation (line 753). -/
  | lowMileage (actual_odometer expected_odometer : ℤ)
  /-- Frame damage critical warning (line 790). -/
  | frameDamageCritical
  /-- Engine smoke warning, carrying the smoke value (line 802). -/
  | engineSmoke (smoke : String)
  /-- Critically worn tires warning (line 849). -/
  | tiresWorn
  /-- Electrical issues warning (line 880). -/
  | electricalIssues
  /-- Accident history warning (line 907). -/
  | accidentHistory
  /-- Diesel premium recommendation (line 974). -/
  | dieselPremium
  /-- IT-corridor premium recommendation (line 982). -/
  | techHubPremium
  /-- Discontinued-model historical pricing recommendation (line 1047). -/
  | discontinuedPricing
  /-- Current-production pricing recommendation (line 1055). -/
  | currentPricing
  /-- Messages produced inside the external base-price resolver path. -/
  | resolverNote (s : String)
  /-- Messages produced by the external market-sentiment analyzer (lines 1096-1103). -/
  | sentimentNote (s : String)
  /-- Excellent-condition recommendation (line 1118). -/
  | excellentCondition
  /-- Fair-condition recommendation (line 1122). -/
  | fairCondition
  /-- Many-owners financing warning (line 1127). -/
  | manyOwners (owners : ℤ)
deriving DecidableEq, Repr

/-- `VehicleInput` dataclass (lines 107-139).  Dates are day ordinals
(`date.toordinal`), so date subtraction is integer subtraction of ordinals. -/
structure VehicleInput where
  make : String
  model : String
  variant : String
  year : ℤ
  registration_date : ℤ
  fuel_type : FuelType
  odometer : ℤ
  owners : ℤ
  transmission : String
  location : String := "Hyderabad"
  frame_damage : Bool := false
  dents_scratches : String := "Minor"
  repainted : Bool := false
  engine_smoke : String := "None"
  tire_tread : ℤ := 75
  ac_working : Bool := true
  electrical_issues : Bool := false
  service_history : Bool := true
  insurance_valid : Bool := true
  accident_history : Bool := false
  engine_noise : String := "Normal"
  transmission_condition : String := "Smooth"
  suspension_condition : String := "Good"
  brake_condition : String := "Good"
  interior_condition : String := "Good"
  rust_present : Bool := false
deriving DecidableEq, Repr

/-- `calculate_vehicle_age` (lines 238-251): `(today - registration_date).days
/ 365.25`, with both dates as day ordinals and `today` made explicit. -/
def calculate_vehicle_age (registration_date today : ℤ) : ℚ :=
  ((today - registration_date : ℤ) : ℚ) / (36525/100)

/-- `DISCONTINUED_MODELS` set (lines 254-262). -/
def DISCONTINUED_MODELS : List String :=
  ["beetle", "volkswagen beetle", "vw beetle",
   "figo", "ford figo", "ecosport", "ford ecosport",
   "chevrolet", "beat", "sail", "cruze",
   "datsun", "redi-go", "go", "go+",
   "palio", "linea", "punto", "avventura",
   "micra", "sunny", "terrano",
   "storme", "safari storme"]

/-- `is_discontinued` (lines 264-271). -/
def is_discontinued (make model : String) : Bool :=
  let make_model := pyLower (make ++ " " ++ model)
  let model_lower := pyLower model
  DISCONTINUED_MODELS.any fun disc => pyIn disc make_model || pyIn disc model_lower

/-- Result of `calculate_odometer_adjustment`: the returned triple plus the
warnings/recommendations the call appends. -/
structure OdoResult where
  usage_factor : ℚ
  odometer_deviation : ℚ
  expected_odometer : ℤ
  warnings : List Msg
  recommendations : List Msg
deriving DecidableEq, Repr

/-- Tiered penalty/bonus computation of `calculate_odometer_adjustment`
(lines 707-758), as a function of the (possibly clamped) deviation.
Returns `(penalty_percentage, warnings, recommendations)`. -/
def odometer_penalty (deviation : ℚ) (actual_odometer expected_odometer : ℤ) :
    ℚ × List Msg × List Msg :=
  if 0 < deviation then
    let remaining0 := deviation
    let step1 :=
      if 0 < remaining0 then
        let tier1_km := min remaining0 40000
        (tier1_km / 10000 * 2, remaining0 - tier1_km)
      else ((0:ℚ), remaining0)
    let step2 :=
      if 0 < step1.2 then
        let tier2_km := min step1.2 50000
        (tier2_km / 10000 * 4, step1.2 - tier2_km)
      else ((0:ℚ), step1.2)
    let step3 :=
      if 0 < step2.2 then
        let tier3_km := min step2.2 10000
        ((8:ℚ), step2.2 - tier3_km,
          if 0 < tier3_km then [Msg.barrier100k] else [])
      else ((0:ℚ), step2.2, ([] : List Msg))
    let pen4 := if 0 < step3.2.1 then step3.2.1 / 10000 * 6 else 0
    (step1.1 + step2.1 + step3.1 + pen4, step3.2.2, [])
  else if deviation < 0 then
    let abs_deviation := |deviation|
    let premium_percentage := min (abs_deviation / 10000 * (3/2)) 10
    (-premium_percentage, [],
      [Msg.lowMileage actual_odometer expected_odometer])
  else (0, [], [])

/-- `calculate_odometer_adjustment(age_years, actual_odometer, fuel_type)`
(lines 672-762). -/
def calculate_odometer_adjustment (age_years : ℚ) (actual_odometer : ℤ)
    (fuel_type : FuelType) : OdoResult :=
  let standard_annual_km := STANDARD_MILEAGE fuel_type
  let expected_odometer := pyInt (age_years * (standard_annual_km : ℚ))
  let raw_deviation : ℚ := ((actual_odometer - expected_odometer : ℤ) : ℚ)
  let tampering := (actual_odometer : ℚ) < age_years * 2000
  let tamper_warnings :=
    if tampering then [Msg.tamperSuspicion actual_odometer age_years] else []
  let odometer_deviation :=
    if tampering then max raw_deviation (-(expected_odometer : ℚ) * (3/10))
    else raw_deviation
  let pen := odometer_penalty odometer_deviation actual_odometer expected_odometer
  let usage_factor := max (1 - pen.1 / 100) (2/5)
  { usage_factor := usage_factor
    odometer_deviation := odometer_deviation
    expected_odometer := expected_odometer
    warnings := tamper_warnings ++ pen.2.1
    recommendations := pen.2.2 }

/-- `smoke_scores.get(engine_smoke, 5)` (line 796). -/
def smoke_scores (s : String) : ℚ :=
  if s = "None" then 10 else if s = "White" then 3
  else if s = "Black" then 0 else 5

/-- `noise_scores.get(engine_noise, 5)` (line 807). -/
def noise_scores (s : String) : ℚ :=
  if s = "Normal" then 10 else if s = "Slight" then 6
  else if s = "Heavy" then 0 else 5

/-- `trans_scores.get(transmission_condition, 5)` (line 813). -/
def trans_scores (s : String) : ℚ :=
  if s = "Smooth" then 10 else if s = "Rough" then 5
  else if s = "Slipping" then 0 else 5

/-- `dent_scores.get(dents_scratches, 7)` (line 822). -/
def dent_scores (s : String) : ℚ :=
  if s = "None" then 15 else if s = "Minor" then 10
  else if s = "Moderate" then 5 else if s = "Severe" then 0 else 7

/-- `susp_scores.get(suspension_condition, 2)` (line 855). -/
def susp_scores (s : String) : ℚ :=
  if s = "Excellent" then 5 else if s = "Good" then 4
  else if s = "Fair" then 2 else if s = "Poor" then 0 else 2

/-- `brake_scores.get(brake_condition, 1)` (line 861). -/
def brake_scores (s : String) : ℚ :=
  if s = "Excellent" then 3 else if s = "Good" then 2
  else if s = "Fair" then 1 else if s = "Poor" then 0 else 1

/-- `int_scores.get(interior_condition, 2)` (line 883). -/
def int_scores (s : String) : ℚ :=
  if s = "Excellent" then 5 else if s = "Good" then 3
  else if s = "Fair" then 1 else if s = "Poor" then 0 else 2

/-- Tire tread score (lines 841-848). -/
def tire_score (tire_tread : ℤ) : ℚ :=
  if 75 ≤ tire_tread then 7 else if 50 ≤ tire_tread then 5
  else if 30 ≤ tire_tread then 2 else 0

/-- Engine/Transmission category sub-score (lines 783-816). -/
def engineScore (v : VehicleInput) : ℚ :=
  (if v.frame_damage then -20 else 5) + smoke_scores v.engine_smoke +
    noise_scores v.engine_noise + trans_scores v.transmission_condition

/-- Body/Frame category sub-score (lines 818-835). -/
def bodyScore (v : VehicleInput) : ℚ :=
  dent_scores v.dents_scratches + (if v.repainted then 0 else 5) +
    (if v.rust_present then 0 else 5)

/-- Tires/Suspension category sub-score (lines 837-864). -/
def mechanicalScore (v : VehicleInput) : ℚ :=
  tire_score v.tire_tread + susp_scores v.suspension_condition +
    brake_scores v.brake_condition

/-- Electrical/Interior category sub-score (lines 866-886). -/
def comfortScore (v : VehicleInput) : ℚ :=
  (if v.ac_working then 5 else 0) + (if v.electrical_issues then 0 else 5) +
    int_scores v.interior_condition

/-- Documentation category sub-score (lines 888-904). -/
def docScore (v : VehicleInput) : ℚ :=
  (if v.service_history then 5 else 0) + (if v.insurance_valid then 3 else 0) +
    (if v.accident_history then 0 else 2)

/-- The per-field condition breakdown dict, in insertion order. -/
def conditionBreakdown (v : VehicleInput) : List (String × ℚ) :=
  [("frame_damage", if v.frame_damage then -20 else 5),
   ("engine_smoke", smoke_scores v.engine_smoke),
   ("engine_noise", noise_scores v.engine_noise),
   ("transmission", trans_scores v.transmission_condition),
   ("dents_scratches", dent_scores v.dents_scratches),
   ("repainted", if v.repainted then 0 else 5),
   ("rust", if v.rust_present then 0 else 5),
   ("tire_tread", tire_score v.tire_tread),
   ("suspension", susp_scores v.suspension_condition),
   ("brakes", brake_scores v.brake_condition),
   ("ac", if v.ac_working then 5 else 0),
   ("electrical", if v.electrical_issues then 0 else 5),
   ("interior", int_scores v.interior_condition),
   ("service_history", if v.service_history then 5 else 0),
   ("insurance", if v.insurance_valid then 3 else 0),
   ("accident_history", if v.accident_history then 0 else 2)]

/-- Warnings appended by `calculate_condition_score`, in source order. -/
def conditionWarnings (v : VehicleInput) : List Msg :=
  (if v.frame_damage then [Msg.frameDamageCritical] else []) ++
  (if v.engine_smoke = "White" ∨ v.engine_smoke = "Black"
    then [Msg.engineSmoke v.engine_smoke] else []) ++
  (if v.tire_tread < 30 then [Msg.tiresWorn] else []) ++
  (if v.electrical_issues then [Msg.electricalIssues] else []) ++
  (if v.accident_history then [Msg.accidentHistory] else [])

/-- `calculate_condition_score(vehicle)` (lines 764-931).
Returns `(total_score, grade, breakdown, warnings)`. -/
def calculate_condition_score (v : VehicleInput) :
    ℚ × ConditionGrade × List (String × ℚ) × List Msg :=
  let engine_score := engineScore v
  let body_score := bodyScore v
  let mechanical_score := mechanicalScore v
  let comfort_score := comfortScore v
  let doc_score := docScore v
  let total_raw :=
    engine_score / 35 * 35 + body_score / 25 * 25 + mechanical_score / 15 * 15 +
      comfort_score / 15 * 15 + doc_score / 10 * 10
  let total_score := max 0 (min 100 total_raw)
  let grade :=
    if 90 ≤ total_score then ConditionGrade.excellent
    else if 75 ≤ total_score then ConditionGrade.veryGood
    else if 50 ≤ total_score then ConditionGrade.good
    else ConditionGrade.fair
  (total_score, grade, conditionBreakdown v, conditionWarnings v)

/-- `get_condition_multiplier(grade)` (lines 933-949). -/
def get_condition_multiplier : ConditionGrade → ℚ
  | ConditionGrade.excellent => 110/100
  | ConditionGrade.veryGood => 105/100
  | ConditionGrade.good => 100/100
  | ConditionGrade.fair => 85/100

/-- `calculate_ownership_factor(owners)`: `OWNERSHIP_MULTIPLIERS.get(owners, 0.75)`
(lines 213-219 and 951-953). -/
def calculate_ownership_factor (owners : ℤ) : ℚ :=
  if owners = 1 then 100/100
  else if owners = 2 then 93/100
  else if owners = 3 then 85/100
  else if owners = 4 then 75/100
  else 75/100

/-- `HYDERABAD_FACTORS['diesel_premium']`. -/
def diesel_premium : ℚ := 105/100

/-- `HYDERABAD_FACTORS['tech_hub_premium']`. -/
def tech_hub_premium : ℚ := 103/100

/-- Tech-hub model keywords (line 979). -/
def tech_hub_models : List String :=
  ["baleno", "i20", "creta", "venue", "seltos", "city", "verna"]

/-- `calculate_hyderabad_factor(make, model, fuel_type, age_years)`
(lines 955-986).  Returns the multiplier and the recommendations appended. -/
def calculate_hyderabad_factor (_make model : String) (fuel_type : FuelType)
    (age_years : ℚ) : ℚ × List Msg :=
  let multiplier0 : ℚ := 100/100
  let d := fuel_type = FuelType.diesel ∧ 5 < age_years
  let multiplier1 := if d then multiplier0 * diesel_premium else multiplier0
  let recs1 : List Msg := if d then [Msg.dieselPremium] else []
  let t := (tech_hub_models.any fun m => pyIn m (pyLower model)) = true ∧
    3 ≤ age_years ∧ age_years ≤ 5
  let multiplier2 := if t then multiplier1 * tech_hub_premium else multiplier1
  let recs2 := if t then recs1 ++ [Msg.techHubPremium] else recs1
  (multiplier2, recs2)

/-- `DEALER_MARGIN` (line 222). -/
def DEALER_MARGIN : ℚ := 12/100

/-- `WHOLESALE_DISCOUNT` (line 223). -/
def WHOLESALE_DISCOUNT : ℚ := 8/100

/-- `GST_RATE` (line 224). -/
def GST_RATE : ℚ := 18/100

/-- The four transaction-context prices. -/
structure TransactionPrices where
  c2c : ℚ
  c2b : ℚ
  b2c : ℚ
  b2b : ℚ
deriving DecidableEq, Repr

/-- `calculate_transaction_prices(fmv)` (lines 988-1020). -/
def calculate_transaction_prices (fmv : ℚ) : TransactionPrices :=
  let c2c_price := fmv
  let c2b_price := fmv * (1 - DEALER_MARGIN)
  let margin_amount := fmv * DEALER_MARGIN
  let gst_on_margin := margin_amount * GST_RATE
  let b2c_price := fmv + margin_amount + gst_on_margin
  let b2b_price := fmv * (1 - DEALER_MARGIN - WHOLESALE_DISCOUNT)
  { c2c := c2c_price, c2b := c2b_price, b2c := b2c_price, b2b := b2b_price }

/-- `ValuationResult` dataclass (lines 142-178). -/
structure ValuationResult where
  fair_market_value : ℚ
  retail_price : ℚ
  trade_in_price : ℚ
  wholesale_price : ℚ
  base_price : ℚ
  depreciated_value : ℚ
  usage_adjusted_value : ℚ
  condition_adjusted_value : ℚ
  depreciation_percentage : ℚ
  usage_factor : ℚ
  condition_score : ℚ
  condition_multiplier : ℚ
  ownership_multiplier : ℚ
  location_multiplier : ℚ
  condition_grade : ConditionGrade
  odometer_deviation : ℚ
  expected_odometer : ℤ
  trade_in_min : ℚ
  trade_in_max : ℚ
  depreciation_breakdown : List (String × ℚ)
  condition_breakdown : List (String × ℚ)
  warnings : List Msg
  recommendations : List Msg
deriving DecidableEq, Repr

/-- Mutable engine accumulators `self.warnings` / `self.recommendations`
(lines 233-236): the state a `valuation` call starts from. -/
structure EngineState where
  warnings : List Msg
  recommendations : List Msg
deriving DecidableEq, Repr

/-- `valuation(vehicle)` (lines 1022-1169), the orchestrator.

External collaborators are made explicit parameters, exactly at the
boundaries the source calls them:
* `today` — `date.today()` inside `calculate_vehicle_age`;
* `base_price`, `resolverWarnings`, `resolverRecs` — the output of the
  base-price resolver step (`get_current_on_road_price` /
  `get_original_on_road_price`, which consult network price fetchers) and the
  messages that step appends;
* `msAvailable`, `sentMult`, `brandMult`, `sentNotes` — the
  `MARKET_SENTIMENT_AVAILABLE` flag and the outputs of the external
  `market_sentiment_analyzer` module.

The incoming `EngineState` is the accumulator state left by previous calls;
lines 1033-1034 reset it before anything else, which is what the
state-independence theorem below captures. -/
def valuation (state : EngineState) (today : ℤ) (base_price : ℚ)
    (resolverWarnings resolverRecs : List Msg) (msAvailable : Bool)
    (sentMult brandMult : ℚ) (sentNotes : List Msg)
    (vehicle : VehicleInput) : ValuationResult :=
  -- lines 1033-1034: `self.warnings = []`, `self.recommendations = []`
  let _ := state
  let warnings0 : List Msg := []
  let recommendations0 : List Msg := []
  -- 1. vehicle age
  let age_years := calculate_vehicle_age vehicle.registration_date today
  -- 2. base price via resolver; branch-specific recommendation appended after
  let recommendations1 := recommendations0 ++ resolverRecs ++
    (if is_discontinued vehicle.make vehicle.model then [Msg.discontinuedPricing]
     else [Msg.currentPricing])
  let warnings1 := warnings0 ++ resolverWarnings
  -- 3. segmented depreciation
  let dep := calculate_segmented_depreciation age_years base_price
  -- 4. odometer adjustment
  let odo := calculate_odometer_adjustment age_years vehicle.odometer
    vehicle.fuel_type
  let usage_adjusted_value := dep.1 * odo.usage_factor
  let warnings2 := warnings1 ++ odo.warnings
  let recommendations2 := recommendations1 ++ odo.recommendations
  -- 5. condition score
  let cond := calculate_condition_score vehicle
  let warnings3 := warnings2 ++ cond.2.2.2
  let condition_multiplier := get_condition_multiplier cond.2.1
  let condition_adjusted_value := usage_adjusted_value * condition_multiplier
  -- 6. ownership factor
  let ownership_multiplier := calculate_ownership_factor vehicle.owners
  let value_after_ownership := condition_adjusted_value * ownership_multiplier
  -- 7. Hyderabad location factor
  let loc := calculate_hyderabad_factor vehicle.make vehicle.model
    vehicle.fuel_type age_years
  let recommendations3 := recommendations2 ++ loc.2
  let value_after_location := value_after_ownership * loc.1
  -- 8. market sentiment (external module, when available)
  let market_sentiment_multiplier := if msAvailable then sentMult * brandMult else 1
  let recommendations4 := recommendations3 ++
    (if msAvailable then sentNotes else [])
  let final_fmv := value_after_location * market_sentiment_multiplier
  -- 9. transaction prices and procurement range
  let tp := calculate_transaction_prices final_fmv
  let trade_in_min := tp.c2b * (95/100)
  let trade_in_max := tp.c2b * (100/100)
  -- 10. final recommendations and warnings
  let recommendations5 := recommendations4 ++
    (if cond.2.1 = ConditionGrade.excellent then [Msg.excellentCondition]
     else if cond.2.1 = ConditionGrade.fair then [Msg.fairCondition] else [])
  let warnings4 := warnings3 ++
    (if 3 ≤ vehicle.owners then [Msg.manyOwners vehicle.owners] else [])
  { fair_market_value := pyRound final_fmv 2
    retail_price := pyRound tp.b2c 2
    trade_in_price := pyRound tp.c2b 2
    wholesale_price := pyRound tp.b2b 2
    base_price := pyRound base_price 2
    depreciated_value := pyRound dep.1 2
    usage_adjusted_value := pyRound usage_adjusted_value 2
    condition_adjusted_value := pyRound condition_adjusted_value 2
    depreciation_percentage := pyRound dep.2.2 2
    usage_factor := pyRound odo.usage_factor 4
    condition_score := pyRound cond.1 2
    condition_multiplier := pyRound condition_multiplier 2
    ownership_multiplier := pyRound ownership_multiplier 2
    location_multiplier := pyRound loc.1 2
    condition_grade := cond.2.1
    odometer_deviation := odo.odometer_deviation
    expected_odometer := odo.expected_odometer
    trade_in_min := pyRound trade_in_min 2
    trade_in_max := pyRound trade_in_max 2
    depreciation_breakdown := dep.2.1
    condition_breakdown := cond.2.2.1
    warnings := warnings4
    recommendations := recommendations5 }

/-! ### `historical_price_database.py` -/

/-- `TELANGANA_TAX_RATES` (lines 119-132): lifetime road-tax rate per year. -/
def TELANGANA_TAX_RATES : List (ℤ × ℚ) :=
  [(2015, 12/100), (2016, 12/100), (2017, 12/100),
   (2018, 14/100), (2019, 14/100), (2020, 14/100),
   (2021, 125/1000), (2022, 125/1000), (2023, 125/1000),
   (2024, 125/1000), (2025, 125/1000)]

/-- `TELANGANA_TAX_RATES.get(year, TELANGANA_TAX_RATES[2025])['rate']`
(line 186): the fallback for unknown years is the 2025 entry, 12.5%. -/
def telangana_tax_rate (year : ℤ) : ℚ :=
  match TELANGANA_TAX_RATES.lookup year with
  | some r => r
  | none => 125/1000

/-- Year-specific fixed charges (`REGISTRATION_CHARGES` entries). -/
structure RegCharges where
  registration : ℚ
  smart_card : ℚ
  cess : ℚ
  other : ℚ
deriving DecidableEq, Repr

/-- `REGISTRATION_CHARGES` (lines 135-147). -/
def REGISTRATION_CHARGES : List (ℤ × RegCharges) :=
  [(2015, ⟨600, 300, 200, 500⟩), (2016, ⟨600, 300, 200, 500⟩),
   (2017, ⟨800, 400, 300, 600⟩), (2018, ⟨1000, 500, 300, 700⟩),
   (2019, ⟨1000, 500, 300, 700⟩), (2020, ⟨1200, 600, 400, 800⟩),
   (2021, ⟨1200, 600, 400, 800⟩), (2022, ⟨1500, 700, 500, 1000⟩),
   (2023, ⟨1500, 700, 500, 1000⟩), (2024, ⟨1800, 800, 600, 1200⟩),
   (2025, ⟨2000, 900, 700, 1400⟩)]

/-- `REGISTRATION_CHARGES.get(year, REGISTRATION_CHARGES[2025])` (line 196). -/
def reg_charges_for (year : ℤ) : RegCharges :=
  match REGISTRATION_CHARGES.lookup year with
  | some rc => rc
  | none => ⟨2000, 900, 700, 1400⟩

/-- `estimate_insurance_cost(ex_showroom_price, year)` (lines 150-166). -/
def estimate_insurance_cost (ex_showroom_price : ℚ) (year : ℤ) : ℚ :=
  let rate : ℚ :=
    if ex_showroom_price < 500000 then 4/100
    else if ex_showroom_price < 1000000 then 35/1000
    else 3/100
  let year_factor : ℚ := 1 + ((year - 2015 : ℤ) : ℚ) * (2/100)
  ex_showroom_price * rate * year_factor

/-- Numeric breakdown of `calculate_on_road_price` (the `road_tax_rate`
display string of the Python breakdown dict is presentation only and omitted). -/
structure OnRoadBreakdown where
  ex_showroom : ℚ
  road_tax : ℚ
  registration : ℚ
  smart_card : ℚ
  cess : ℚ
  other_charges : ℚ
  insurance : ℚ
  total_on_road : ℚ
deriving DecidableEq, Repr

/-- `calculate_on_road_price(ex_showroom, year, state)` (lines 169-219). -/
def calculate_on_road_price (ex_showroom : ℚ) (year : ℤ) (state : String) :
    ℚ × OnRoadBreakdown :=
  let road_tax :=
    if pyLower state = "telangana" then ex_showroom * telangana_tax_rate year
    else ex_showroom * (12/100)
  let rc := reg_charges_for year
  let insurance := estimate_insurance_cost ex_showroom year
  let on_road := ex_showroom + road_tax + rc.registration + rc.smart_card +
    rc.cess + rc.other + insurance
  (on_road,
    { ex_showroom := ex_showroom, road_tax := road_tax,
      registration := rc.registration, smart_card := rc.smart_card,
      cess := rc.cess, other_charges := rc.other, insurance := insurance,
      total_on_road := on_road })

/-- A fully explicit best-value inspection record used as witness input. -/
def bestSwift : VehicleInput :=
  { make := "Maruti", model := "Swift", variant := "VXi", year := 2020,
    registration_date := 737500, fuel_type := FuelType.petrol,
    odometer := 30000, owners := 1, transmission := "Manual",
    frame_damage := false, dents_scratches := "None", repainted := false,
    engine_smoke := "None", tire_tread := 80, ac_working := true,
    electrical_issues := false, service_history := true,
    insurance_valid := true, accident_history := false,
    engine_noise := "Normal", transmission_condition := "Smooth",
    suspension_condition := "Excellent", brake_condition := "Excellent",
    interior_condition := "Excellent", rust_present := false }

/-- A record whose seven graded inspection strings are all outside their
documented value sets, used as witness input. -/
def weirdVehicle : VehicleInput :=
  { make := "Test", model := "Box", variant := "X", year := 2018,
    registration_date := 736000, fuel_type := FuelType.petrol,
    odometer := 50000, owners := 1, transmission := "Manual",
    engine_smoke := "Purple", engine_noise := "Odd",
    transmission_condition := "Weird", dents_scratches := "Many",
    suspension_condition := "Meh", brake_condition := "Soso",
    interior_condition := "Tired" }

/-- An input violating every §7 invariant at once: negative odometer, owner
count below 1, tire tread above 100.  Registered at day ordinal 0; with
`today = 1461` the age is exactly 4 years. -/
def invalidVehicle : VehicleInput :=
  { make := "Hyundai", model := "Creta", variant := "SX", year := 2022,
    registration_date := 0, fuel_type := FuelType.petrol,
    odometer := -5, owners := 0, transmission := "Manual",
    tire_tread := 150 }

/-- `int(q)` agrees with the floor on nonnegative rationals. -/
lemma pyInt_eq_floor {q : ℚ} (h : 0 ≤ q) : pyInt q = ⌊q⌋ := by
  simp [pyInt, h]

/-- Value component of the full-year loop: `n` passes of
`remaining -= remaining * rate` multiply the value by `(1 - rate)^n`. -/
lemma depFullYears_fst (rate : ℚ) (label n : ℕ) (v : ℚ) :
    (depFullYears rate label n v).1 = v * (1 - rate) ^ n := by
  induction n generalizing label v with
  | zero => simp [depFullYears]
  | succ n ih =>
    simp only [depFullYears]
    rw [ih]
    ring

/-- Value component of the partial-year step, for a nonnegative fraction. -/
lemma depPartYear_fst (rate : ℚ) (label : ℤ) {q : ℚ} (hq : 0 ≤ q) (v : ℚ) :
    (depPartYear rate label q v).1 = v * (1 - rate * q) := by
  unfold depPartYear
  rcases eq_or_lt_of_le hq with h | h
  · rw [if_neg (by rw [← h]; exact lt_irrefl 0), ← h]
    ring
  · rw [if_pos h]
    ring

/-- The fractional part of a rational is nonnegative. -/
lemma frac_nonneg (t : ℚ) : 0 ≤ t - (⌊t⌋ : ℚ) := by
  have := Int.floor_le t
  linarith

/-- The fractional part of a rational is `< 1`. -/
lemma frac_lt_one (t : ℚ) : t - (⌊t⌋ : ℚ) < 1 := by
  have := Int.lt_floor_add_one t
  push_cast at this
  linarith

/-- Depreciation branch `age_years <= 1`. -/
lemma dep_eq_bracket1 {a : ℚ} (h : a ≤ 1) (p : ℚ) :
    depreciatedValue a p = p * (1 - rate_year_0_1 * a) := by
  simp only [depreciatedValue, calculate_segmented_depreciation, if_pos h]
  ring

/-- Depreciation branch `1 < age_years <= 3`, in closed form. -/
lemma dep_eq_bracket2 {a : ℚ} (h1 : 1 < a) (h3 : a ≤ 3) (p : ℚ) :
    depreciatedValue a p =
      bracketVal rate_year_1_3 (a - 1) (p - p * rate_year_0_1) := by
  have ha : (0:ℚ) ≤ a - 1 := by linarith
  simp only [depreciatedValue, calculate_segmented_depreciation,
    if_neg (not_le.mpr h1), if_pos h3, pyInt_eq_floor ha]
  rw [depPartYear_fst _ _ (frac_nonneg (a - 1)), depFullYears_fst]
  unfold bracketVal
  ring

/-- Depreciation branch `3 < age_years <= 5`, in closed form. -/
lemma dep_eq_bracket3 {a : ℚ} (h3 : 3 < a) (h5 : a ≤ 5) (p : ℚ) :
    depreciatedValue a p =
      bracketVal rate_year_3_5 (a - 3)
        ((p - p * rate_year_0_1) * (1 - rate_year_1_3) ^ 2) := by
  have ha : (0:ℚ) ≤ a - 3 := by linarith
  simp only [depreciatedValue, calculate_segmented_depreciation,
    if_neg (not_le.mpr (by linarith : (1:ℚ) < a)),
    if_neg (not_le.mpr h3), if_pos h5, pyInt_eq_floor ha]
  rw [depPartYear_fst _ _ (frac_nonneg (a - 3)), depFullYears_fst,
    depFullYears_fst]
  unfold bracketVal
  ring

/-- Depreciation branch `age_years > 5`, in closed form. -/
lemma dep_eq_bracket4 {a : ℚ} (h5 : 5 < a) (p : ℚ) :
    depreciatedValue a p =
      bracketVal rate_year_5_plus (a - 5)
        ((p - p * rate_year_0_1) * (1 - rate_year_1_3) ^ 2 *
          (1 - rate_year_3_5) ^ 2) := by
  have ha : (0:ℚ) ≤ a - 5 := by linarith
  simp only [depreciatedValue, calculate_segmented_depreciation,
    if_neg (not_le.mpr (by linarith : (1:ℚ) < a)),
    if_neg (not_le.mpr (by linarith : (3:ℚ) < a)),
    if_neg (not_le.mpr h5), pyInt_eq_floor ha]
  rw [depPartYear_fst _ _ (frac_nonneg (a - 5)), depFullYears_fst,
    depFullYears_fst, depFullYears_fst]
  unfold bracketVal
  ring

/-- A bracket keeps the value nonnegative. -/
lemma bracketVal_nonneg {r v : ℚ} (hr0 : 0 ≤ r) (hr1 : r < 1) (hv : 0 ≤ v)
    (t : ℚ) : 0 ≤ bracketVal r t v := by
  have h0 := frac_nonneg t
  have h1 := frac_lt_one t
  have hlast : (0:ℚ) ≤ 1 - r * (t - (⌊t⌋ : ℚ)) := by nlinarith
  exact mul_nonneg (mul_nonneg hv (pow_nonneg (by linarith) _)) hlast

/-- A bracket never increases the value. -/
lemma bracketVal_le_self {r v : ℚ} (hr0 : 0 ≤ r) (hr1 : r < 1) (hv : 0 ≤ v)
    (t : ℚ) : bracketVal r t v ≤ v := by
  have h0 := frac_nonneg t
  have h1 := frac_lt_one t
  have hpow0 : (0:ℚ) ≤ (1 - r) ^ (⌊t⌋.toNat) := pow_nonneg (by linarith) _
  have hpow1 : (1 - r) ^ (⌊t⌋.toNat) ≤ 1 := pow_le_one₀ (by linarith) (by linarith)
  have hlast0 : (0:ℚ) ≤ 1 - r * (t - (⌊t⌋ : ℚ)) := by nlinarith
  have hlast1 : 1 - r * (t - (⌊t⌋ : ℚ)) ≤ 1 := by nlinarith
  unfold bracketVal
  calc v * (1 - r) ^ (⌊t⌋.toNat) * (1 - r * (t - (⌊t⌋ : ℚ)))
      ≤ v * (1 - r) ^ (⌊t⌋.toNat) * 1 :=
        mul_le_mul_of_nonneg_left hlast1 (mul_nonneg hv hpow0)
    _ = v * (1 - r) ^ (⌊t⌋.toNat) := by ring
    _ ≤ v * 1 := mul_le_mul_of_nonneg_left hpow1 hv
    _ = v := by ring

/-- Within a bracket the value is non-increasing in the time spent there. -/
lemma bracketVal_antitone {r v s t : ℚ} (hr0 : 0 ≤ r) (hr1 : r < 1)
    (hv : 0 ≤ v) (hs : 0 ≤ s) (hst : s ≤ t) :
    bracketVal r t v ≤ bracketVal r s v := by
  have hm0 : (0:ℤ) ≤ ⌊s⌋ := Int.floor_nonneg.mpr hs
  have hmn : ⌊s⌋ ≤ ⌊t⌋ := Int.floor_mono hst
  have hfs0 := frac_nonneg s
  have hfs1 := frac_lt_one s
  have hft0 := frac_nonneg t
  have hft1 := frac_lt_one t
  have hpow0 : ∀ n : ℕ, (0:ℚ) ≤ (1 - r) ^ n := fun n => pow_nonneg (by linarith) n
  rcases eq_or_lt_of_le hmn with he | hlt
  · -- same number of full years: only the fractional slice differs
    unfold bracketVal
    rw [← he]
    have hless : r * (s - (⌊s⌋ : ℚ)) ≤ r * (t - (⌊s⌋ : ℚ)) :=
      mul_le_mul_of_nonneg_left (by linarith) hr0
    have hbase : (0:ℚ) ≤ v * (1 - r) ^ (⌊s⌋.toNat) :=
      mul_nonneg hv (hpow0 _)
    exact mul_le_mul_of_nonneg_left (by linarith) hbase
  · -- strictly more full years
    have hnn : ⌊s⌋.toNat + 1 ≤ ⌊t⌋.toNat := by omega
    have h1 : bracketVal r t v ≤ v * (1 - r) ^ (⌊t⌋.toNat) := by
      unfold bracketVal
      have hb : (0:ℚ) ≤ v * (1 - r) ^ (⌊t⌋.toNat) := mul_nonneg hv (hpow0 _)
      have hl1 : 1 - r * (t - (⌊t⌋ : ℚ)) ≤ 1 := by nlinarith
      calc v * (1 - r) ^ (⌊t⌋.toNat) * (1 - r * (t - (⌊t⌋ : ℚ)))
          ≤ v * (1 - r) ^ (⌊t⌋.toNat) * 1 := mul_le_mul_of_nonneg_left hl1 hb
        _ = v * (1 - r) ^ (⌊t⌋.toNat) := by ring
    have h2 : v * (1 - r) ^ (⌊t⌋.toNat) ≤ v * (1 - r) ^ (⌊s⌋.toNat + 1) :=
      mul_le_mul_of_nonneg_left
        (pow_le_pow_of_le_one (by linarith) (by linarith) hnn) hv
    have h3 : v * (1 - r) ^ (⌊s⌋.toNat + 1) ≤ bracketVal r s v := by
      unfold bracketVal
      have hq : 1 - r ≤ 1 - r * (s - (⌊s⌋ : ℚ)) := by nlinarith
      have hbase : (0:ℚ) ≤ v * (1 - r) ^ (⌊s⌋.toNat) := mul_nonneg hv (hpow0 _)
      calc v * (1 - r) ^ (⌊s⌋.toNat + 1)
          = v * (1 - r) ^ (⌊s⌋.toNat) * (1 - r) := by ring
        _ ≤ v * (1 - r) ^ (⌊s⌋.toNat) * (1 - r * (s - (⌊s⌋ : ℚ))) :=
            mul_le_mul_of_nonneg_left hq hbase
    linarith

/-- Spending exactly the full two years of a two-year bracket compounds the
rate twice with no fractional slice. -/
lemma bracketVal_two (r v : ℚ) : bracketVal r 2 v = v * (1 - r) ^ 2 := by
  have hfl : ⌊(2:ℚ)⌋ = 2 := by norm_num
  unfold bracketVal
  rw [hfl, show Int.toNat 2 = 2 from rfl]
  norm_num

/-- On `[0, w] ⊆ [0, 2]` a bracket's value exceeds its exit value `v (1-r)²`. -/
lemma bracketVal_ge_exit {r v t : ℚ} (hr0 : 0 ≤ r) (hr1 : r < 1) (hv : 0 ≤ v)
    (ht0 : 0 ≤ t) (ht2 : t ≤ 2) : v * (1 - r) ^ 2 ≤ bracketVal r t v := by
  rw [← bracketVal_two r v]
  exact bracketVal_antitone hr0 hr1 hv ht0 ht2

lemma entry13_nonneg {p : ℚ} (hp : 0 ≤ p) : 0 ≤ entry13 p := by
  unfold entry13 rate_year_0_1; nlinarith

lemma entry35_nonneg {p : ℚ} (hp : 0 ≤ p) : 0 ≤ entry35 p := by
  have := entry13_nonneg hp
  unfold entry35 rate_year_1_3; nlinarith

lemma entry5p_nonneg {p : ℚ} (hp : 0 ≤ p) : 0 ≤ entry5p p := by
  have := entry35_nonneg hp
  unfold entry5p rate_year_3_5; nlinarith

lemma entry13_le {p : ℚ} (hp : 0 ≤ p) : entry13 p ≤ p := by
  unfold entry13 rate_year_0_1; nlinarith

lemma entry35_le {p : ℚ} (hp : 0 ≤ p) : entry35 p ≤ entry13 p := by
  have := entry13_nonneg hp
  unfold entry35 rate_year_1_3; nlinarith

lemma entry5p_le {p : ℚ} (hp : 0 ≤ p) : entry5p p ≤ entry35 p := by
  have := entry35_nonneg hp
  unfold entry5p rate_year_3_5; nlinarith

/-- Bracket-1 values lie between the bracket's exit and entry values. -/
lemma dep_bounds_b1 {a p : ℚ} (h0 : 0 ≤ a) (h1 : a ≤ 1) (hp : 0 ≤ p) :
    entry13 p ≤ depreciatedValue a p ∧ depreciatedValue a p ≤ p := by
  rw [dep_eq_bracket1 h1]
  unfold entry13 rate_year_0_1
  constructor <;> nlinarith

lemma dep_bounds_b2 {a p : ℚ} (h1 : 1 < a) (h3 : a ≤ 3) (hp : 0 ≤ p) :
    entry35 p ≤ depreciatedValue a p ∧ depreciatedValue a p ≤ entry13 p := by
  rw [dep_eq_bracket2 h1 h3]
  have hv := entry13_nonneg hp
  have hr0 : (0:ℚ) ≤ rate_year_1_3 := by norm_num [rate_year_1_3]
  have hr1 : rate_year_1_3 < 1 := by norm_num [rate_year_1_3]
  exact ⟨bracketVal_ge_exit hr0 hr1 hv (by linarith) (by linarith),
    bracketVal_le_self hr0 hr1 hv _⟩

lemma dep_bounds_b3 {a p : ℚ} (h3 : 3 < a) (h5 : a ≤ 5) (hp : 0 ≤ p) :
    entry5p p ≤ depreciatedValue a p ∧ depreciatedValue a p ≤ entry35 p := by
  rw [dep_eq_bracket3 h3 h5]
  have hv := entry35_nonneg hp
  have hr0 : (0:ℚ) ≤ rate_year_3_5 := by norm_num [rate_year_3_5]
  have hr1 : rate_year_3_5 < 1 := by norm_num [rate_year_3_5]
  exact ⟨bracketVal_ge_exit hr0 hr1 hv (by linarith) (by linarith),
    bracketVal_le_self hr0 hr1 hv _⟩

lemma dep_bounds_b4 {a p : ℚ} (h5 : 5 < a) (hp : 0 ≤ p) :
    0 ≤ depreciatedValue a p ∧ depreciatedValue a p ≤ entry5p p := by
  rw [dep_eq_bracket4 h5]
  have hv := entry5p_nonneg hp
  have hr0 : (0:ℚ) ≤ rate_year_5_plus := by norm_num [rate_year_5_plus]
  have hr1 : rate_year_5_plus < 1 := by norm_num [rate_year_5_plus]
  exact ⟨bracketVal_nonneg hr0 hr1 hv _, bracketVal_le_self hr0 hr1 hv _⟩

/-- The depreciated value always stays within `[0, base_price]`. -/
lemma dep_value_bounds {a p : ℚ} (h0 : 0 ≤ a) (hp : 0 ≤ p) :
    0 ≤ depreciatedValue a p ∧ depreciatedValue a p ≤ p := by
  have c13 := entry13_le hp
  have c35 := entry35_le hp
  have c5p := entry5p_le hp
  have n35 := entry35_nonneg hp
  have n5p := entry5p_nonneg hp
  rcases le_or_lt a 1 with h1 | h1
  · have hb := dep_bounds_b1 h0 h1 hp
    have hn := entry13_nonneg hp
    constructor <;> linarith [hb.1, hb.2]
  · rcases le_or_lt a 3 with h3 | h3
    · have := dep_bounds_b2 h1 h3 hp
      constructor <;> linarith [this.1, this.2]
    · rcases le_or_lt a 5 with h5 | h5
      · have := dep_bounds_b3 h3 h5 hp
        constructor <;> linarith [this.1, this.2]
      · have := dep_bounds_b4 h5 hp
        constructor <;> linarith [this.1, this.2]

/-- The depreciated value is non-increasing in the vehicle age. -/
lemma dep_value_antitone {p a₁ a₂ : ℚ} (hp : 0 ≤ p) (h0 : 0 ≤ a₁)
    (h12 : a₁ ≤ a₂) : depreciatedValue a₂ p ≤ depreciatedValue a₁ p := by
  have c13 := entry13_le hp
  have c35 := entry35_le hp
  have c5p := entry5p_le hp
  have hr13a : (0:ℚ) ≤ rate_year_1_3 := by norm_num [rate_year_1_3]
  have hr13b : rate_year_1_3 < 1 := by norm_num [rate_year_1_3]
  have hr35a : (0:ℚ) ≤ rate_year_3_5 := by norm_num [rate_year_3_5]
  have hr35b : rate_year_3_5 < 1 := by norm_num [rate_year_3_5]
  have hr5pa : (0:ℚ) ≤ rate_year_5_plus := by norm_num [rate_year_5_plus]
  have hr5pb : rate_year_5_plus < 1 := by norm_num [rate_year_5_plus]
  rcases le_or_lt a₁ 1 with h1a | h1a
  · rcases le_or_lt a₂ 1 with h1b | h1b
    · -- both in bracket 1: linear decay
      rw [dep_eq_bracket1 h1a, dep_eq_bracket1 h1b]
      unfold rate_year_0_1
      nlinarith
    · -- a₁ in bracket 1, a₂ beyond: go through the entry value of bracket 2
      have lb := (dep_bounds_b1 h0 h1a hp).1
      rcases le_or_lt a₂ 3 with h3b | h3b
      · have ub := (dep_bounds_b2 h1b h3b hp).2
        linarith
      · rcases le_or_lt a₂ 5 with h5b | h5b
        · have ub := (dep_bounds_b3 h3b h5b hp).2
          linarith
        · have ub := (dep_bounds_b4 h5b hp).2
          linarith
  · rcases le_or_lt a₁ 3 with h3a | h3a
    · rcases le_or_lt a₂ 3 with h3b | h3b
      · -- both in bracket 2
        rw [dep_eq_bracket2 h1a h3a, dep_eq_bracket2 (by linarith) h3b]
        exact bracketVal_antitone hr13a hr13b (entry13_nonneg hp)
          (by linarith) (by linarith)
      · have lb := (dep_bounds_b2 h1a h3a hp).1
        rcases le_or_lt a₂ 5 with h5b | h5b
        · have ub := (dep_bounds_b3 h3b h5b hp).2
          linarith
        · have ub := (dep_bounds_b4 h5b hp).2
          linarith
    · rcases le_or_lt a₁ 5 with h5a | h5a
      · rcases le_or_lt a₂ 5 with h5b | h5b
        · -- both in bracket 3
          rw [dep_eq_bracket3 h3a h5a, dep_eq_bracket3 (by linarith) h5b]
          exact bracketVal_antitone hr35a hr35b (entry35_nonneg hp)
            (by linarith) (by linarith)
        · have lb := (dep_bounds_b3 h3a h5a hp).1
          have ub := (dep_bounds_b4 h5b hp).2
          linarith
      · -- both in bracket 4
        rw [dep_eq_bracket4 h5a, dep_eq_bracket4 (by linarith)]
        exact bracketVal_antitone hr5pa hr5pb (entry5p_nonneg hp)
          (by linarith) (by linarith)

/-! ### Claim theorems -/

/-- **C2.** For every age `a ≥ 0` and base price `p > 0`, the depreciated
value returned by `calculate_segmented_depreciation` is monotonically
non-increasing as a function of the age (`p` held fixed) and satisfies
`0 ≤ depreciated_value ≤ p`. -/
theorem depreciation_monotone_and_bounded (p a₁ a₂ : ℚ) (hp : 0 < p)
    (h0 : 0 ≤ a₁) (h12 : a₁ ≤ a₂) :
    depreciatedValue a₂ p ≤ depreciatedValue a₁ p ∧
      0 ≤ depreciatedValue a₂ p ∧ depreciatedValue a₂ p ≤ p :=
  ⟨dep_value_antitone hp.le h0 h12,
    (dep_value_bounds (h0.trans h12) hp.le).1,
    (dep_value_bounds (h0.trans h12) hp.le).2⟩

/-- Witness for `depreciation_monotone_and_bounded`: `p = 1000`, `a₁ = 2`,
`a₂ = 7/2`. -/
theorem depreciation_monotone_and_bounded_witness :
    (0:ℚ) < 1000 ∧ (0:ℚ) ≤ 2 ∧ (2:ℚ) ≤ 7/2 ∧
      (depreciatedValue (7/2) 1000 ≤ depreciatedValue 2 1000 ∧
        0 ≤ depreciatedValue (7/2) 1000 ∧ depreciatedValue (7/2) 1000 ≤ 1000) :=
  ⟨by norm_num, by norm_num, by norm_num,
    depreciation_monotone_and_bounded 1000 2 (7/2) (by norm_num) (by norm_num)
      (by norm_num)⟩

/-- **C3.** For every base price `p > 0`, the segmented depreciation at age
exactly `1.0` returns exactly `p (1 − 0.17)`, and at age exactly `3.0` returns
exactly `p (1 − 0.17)(1 − 0.11)²` — the 11% cuts applied year-by-year on the
remaining value, not a single 22% cut.  An age exactly on a bracket boundary
is computed with the bracket being exited, not the next one: the third
conjunct shows the same for age `5.0`, which uses only the 17%, 11% and 9%
rates, never the entering 6% bracket. -/
theorem depreciation_boundary_ages (p : ℚ) (hp : 0 < p) :
    depreciatedValue 1 p = p * (1 - 17/100) ∧
      depreciatedValue 3 p = p * (1 - 17/100) * (1 - 11/100) ^ 2 ∧
      depreciatedValue 5 p =
        p * (1 - 17/100) * (1 - 11/100) ^ 2 * (1 - 9/100) ^ 2 := by
  refine ⟨?_, ?_, ?_⟩
  · rw [dep_eq_bracket1 le_rfl]
    unfold rate_year_0_1
    ring
  · rw [dep_eq_bracket2 (by norm_num) le_rfl,
      show (3:ℚ) - 1 = 2 by norm_num, bracketVal_two]
    unfold rate_year_0_1 rate_year_1_3
    ring
  · rw [dep_eq_bracket3 (by norm_num) le_rfl,
      show (5:ℚ) - 3 = 2 by norm_num, bracketVal_two]
    unfold rate_year_0_1 rate_year_1_3 rate_year_3_5
    ring

/-- Witness for `depreciation_boundary_ages` at `p = 800000`. -/
theorem depreciation_boundary_ages_witness :
    (0:ℚ) < 800000 ∧
      (depreciatedValue 1 800000 = 800000 * (1 - 17/100) ∧
        depreciatedValue 3 800000 = 800000 * (1 - 17/100) * (1 - 11/100) ^ 2 ∧
        depreciatedValue 5 800000 =
          800000 * (1 - 17/100) * (1 - 11/100) ^ 2 * (1 - 9/100) ^ 2) :=
  ⟨by norm_num, depreciation_boundary_ages 800000 (by norm_num)⟩

lemma pyInt_nonneg {q : ℚ} (h : 0 ≤ q) : 0 ≤ pyInt q := by
  rw [pyInt_eq_floor h]
  exact Int.floor_nonneg.mpr h

lemma std_mileage_nonneg (f : FuelType) : (0:ℚ) ≤ (STANDARD_MILEAGE f : ℚ) := by
  cases f <;> norm_num [STANDARD_MILEAGE]

/-- A zero deviation incurs no penalty, no warning, no recommendation. -/
lemma odometer_penalty_zero (a e : ℤ) :
    odometer_penalty 0 a e = (0, [], []) := by
  norm_num [odometer_penalty]

/-- A `+40000` km deviation is consumed entirely by tier 1 at 2% per 10k. -/
lemma odometer_penalty_40000 (a e : ℤ) :
    odometer_penalty 40000 a e = (8, [], []) := by
  norm_num [odometer_penalty]

/-- Any deviation beyond 90000 km: 8% from tier 1, 20% from tier 2, a flat 8%
from tier 3 no matter how little of the 90k-100k band is used, 6% per 10k
beyond 100k, plus the 100k-barrier warning. -/
lemma odometer_penalty_barrier {d : ℚ} (h : 90000 < d) (a e : ℤ) :
    odometer_penalty d a e =
      (8 + 20 + 8 +
          (if 0 < d - 100000 then (d - 100000) / 10000 * 6 else 0),
        [Msg.barrier100k], []) := by
  have hd : (0:ℚ) < d := by linarith
  have e1 : min d 40000 = (40000:ℚ) := min_eq_right (by linarith)
  simp only [odometer_penalty, if_pos hd, e1]
  rw [if_pos (show (0:ℚ) < d - 40000 by linarith)]
  have e2 : min (d - 40000) 50000 = (50000:ℚ) := min_eq_right (by linarith)
  simp only [e2]
  rw [if_pos (show (0:ℚ) < d - 40000 - 50000 by linarith)]
  rw [if_pos (show (0:ℚ) < min (d - 40000 - 50000) 10000 from
    lt_min (by linarith) (by norm_num))]
  rcases le_or_lt d 100000 with hc | hc
  · have e3 : min (d - 40000 - 50000) (10000:ℚ) = d - 40000 - 50000 :=
      min_eq_left (by linarith)
    rw [e3,
      if_neg (show ¬ (0:ℚ) < d - 40000 - 50000 - (d - 40000 - 50000) by linarith),
      if_neg (show ¬ (0:ℚ) < d - 100000 by linarith)]
    norm_num
  · have e3 : min (d - 40000 - 50000) (10000:ℚ) = 10000 :=
      min_eq_right (by linarith)
    rw [e3,
      if_pos (show (0:ℚ) < d - 40000 - 50000 - 10000 by linarith),
      if_pos (show (0:ℚ) < d - 100000 by linarith)]
    norm_num
    ring

/-- Usage multiplier is exactly 1 when the actual odometer equals the
expected one. -/
lemma usage_factor_at_expected (age_years : ℚ) (fuel_type : FuelType)
    (actual : ℤ) (h0 : 0 ≤ age_years)
    (heq : actual = pyInt (age_years * (STANDARD_MILEAGE fuel_type : ℚ))) :
    (calculate_odometer_adjustment age_years actual fuel_type).usage_factor
      = 1 := by
  subst heq
  simp only [calculate_odometer_adjustment]
  set E := pyInt (age_years * (STANDARD_MILEAGE fuel_type : ℚ)) with hE
  have hexp : (0:ℤ) ≤ E :=
    pyInt_nonneg (mul_nonneg h0 (std_mileage_nonneg fuel_type))
  have hEcast : (0:ℚ) ≤ (E:ℚ) := by exact_mod_cast hexp
  have hEq : ((E - E : ℤ) : ℚ) = 0 := by simp
  have hdev : (if (E:ℚ) < age_years * 2000
      then max ((E - E : ℤ) : ℚ) (-(E:ℚ) * (3/10))
      else ((E - E : ℤ) : ℚ)) = 0 := by
    split_ifs
    · rw [hEq]
      exact max_eq_left (by nlinarith)
    · exact hEq
  rw [hdev, odometer_penalty_zero]
  norm_num

/-- Usage multiplier is exactly 0.92 at a `+40000` km deviation. -/
lemma usage_factor_at_40000 (age_years : ℚ) (fuel_type : FuelType)
    (actual : ℤ) (h0 : 0 ≤ age_years)
    (hd : actual - pyInt (age_years * (STANDARD_MILEAGE fuel_type : ℚ))
      = 40000) :
    (calculate_odometer_adjustment age_years actual fuel_type).usage_factor
      = 23/25 := by
  simp only [calculate_odometer_adjustment]
  set E := pyInt (age_years * (STANDARD_MILEAGE fuel_type : ℚ)) with hE
  have hexp : (0:ℤ) ≤ E :=
    pyInt_nonneg (mul_nonneg h0 (std_mileage_nonneg fuel_type))
  have hEcast : (0:ℚ) ≤ (E:ℚ) := by exact_mod_cast hexp
  have hcast : ((actual - E : ℤ) : ℚ) = 40000 := by
    rw [hd]; norm_num
  have hdev : (if (actual:ℚ) < age_years * 2000
      then max ((actual - E : ℤ) : ℚ) (-(E:ℚ) * (3/10))
      else ((actual - E : ℤ) : ℚ)) = 40000 := by
    split_ifs
    · rw [hcast]
      exact max_eq_left (by nlinarith)
    · exact hcast
  rw [hdev, odometer_penalty_40000]
  norm_num

/-- Beyond a `+90000` km deviation, the barrier warning fires and the penalty
contains the flat 8% tier-3 component. -/
lemma usage_factor_barrier (age_years : ℚ) (fuel_type : FuelType)
    (actual : ℤ) (d : ℚ) (h0 : 0 ≤ age_years)
    (hgt : 90000 < actual - pyInt (age_years * (STANDARD_MILEAGE fuel_type : ℚ)))
    (hdq : d = ((actual - pyInt (age_years * (STANDARD_MILEAGE fuel_type : ℚ)) : ℤ) : ℚ)) :
    Msg.barrier100k ∈
        (calculate_odometer_adjustment age_years actual fuel_type).warnings ∧
      (calculate_odometer_adjustment age_years actual fuel_type).usage_factor
        = max (1 - (8 + 20 + 8 +
            (if 0 < d - 100000 then (d - 100000) / 10000 * 6 else 0)) / 100)
          (2/5) := by
  simp only [calculate_odometer_adjustment]
  set E := pyInt (age_years * (STANDARD_MILEAGE fuel_type : ℚ)) with hE
  have hexp : (0:ℤ) ≤ E :=
    pyInt_nonneg (mul_nonneg h0 (std_mileage_nonneg fuel_type))
  have hEcast : (0:ℚ) ≤ (E:ℚ) := by exact_mod_cast hexp
  have hdcast : (90000:ℚ) < ((actual - E : ℤ) : ℚ) := by exact_mod_cast hgt
  have hdev : (if (actual:ℚ) < age_years * 2000
      then max ((actual - E : ℤ) : ℚ) (-(E:ℚ) * (3/10))
      else ((actual - E : ℤ) : ℚ)) = d := by
    rw [hdq]
    split_ifs
    · exact max_eq_left (by nlinarith)
    · rfl
  rw [hdev, odometer_penalty_barrier (by rw [hdq]; exact_mod_cast hgt)]
  constructor
  · simp
  · rfl

/-- **C4.** For the odometer adjuster: a zero deviation (actual = expected)
gives usage multiplier exactly `1.00`; a positive deviation of exactly
`40000` km gives exactly `0.92`; and any deviation that crosses into the
90k-100k tier (`deviation > 90000`) adds a flat 8% penalty component —
the total penalty is `8% + 20% + 8%` plus only the beyond-100k tier-4 part,
independent of how much of the 90k-100k tier is consumed — and puts the
100k-barrier warning in the warnings list. -/
theorem odometer_multiplier_spec :
    (∀ (age_years : ℚ) (fuel_type : FuelType) (actual : ℤ), 0 ≤ age_years →
      actual = pyInt (age_years * (STANDARD_MILEAGE fuel_type : ℚ)) →
      (calculate_odometer_adjustment age_years actual fuel_type).usage_factor
        = 1) ∧
    (∀ (age_years : ℚ) (fuel_type : FuelType) (actual : ℤ), 0 ≤ age_years →
      actual - pyInt (age_years * (STANDARD_MILEAGE fuel_type : ℚ)) = 40000 →
      (calculate_odometer_adjustment age_years actual fuel_type).usage_factor
        = 23/25) ∧
    (∀ (age_years : ℚ) (fuel_type : FuelType) (actual : ℤ) (d : ℚ),
      0 ≤ age_years →
      90000 < actual - pyInt (age_years * (STANDARD_MILEAGE fuel_type : ℚ)) →
      d = ((actual - pyInt (age_years * (STANDARD_MILEAGE fuel_type : ℚ)) : ℤ) : ℚ) →
      Msg.barrier100k ∈
          (calculate_odometer_adjustment age_years actual fuel_type).warnings ∧
        (calculate_odometer_adjustment age_years actual fuel_type).usage_factor
          = max (1 - (8 + 20 + 8 +
              (if 0 < d - 100000 then (d - 100000) / 10000 * 6 else 0)) / 100)
            (2/5)) :=
  ⟨usage_factor_at_expected, usage_factor_at_40000, usage_factor_barrier⟩

/-- Witness for `odometer_multiplier_spec`: a 5-year-old petrol car expects
`55000` km; actual readings `55000`, `95000` and `150000` km exercise the
three clauses. -/
theorem odometer_multiplier_spec_witness :
    (calculate_odometer_adjustment 5 55000 FuelType.petrol).usage_factor = 1 ∧
    (calculate_odometer_adjustment 5 95000 FuelType.petrol).usage_factor
      = 23/25 ∧
    (Msg.barrier100k ∈
        (calculate_odometer_adjustment 5 150000 FuelType.petrol).warnings ∧
      (calculate_odometer_adjustment 5 150000 FuelType.petrol).usage_factor
        = max (1 - (8 + 20 + 8 +
            (if (0:ℚ) < 95000 - 100000
              then ((95000:ℚ) - 100000) / 10000 * 6 else 0)) / 100) (2/5)) :=
  ⟨odometer_multiplier_spec.1 5 FuelType.petrol 55000 (by norm_num)
      (by norm_num [pyInt, STANDARD_MILEAGE]),
    odometer_multiplier_spec.2.1 5 FuelType.petrol 95000 (by norm_num)
      (by norm_num [pyInt, STANDARD_MILEAGE]),
    odometer_multiplier_spec.2.2 5 FuelType.petrol 150000 95000 (by norm_num)
      (by norm_num [pyInt, STANDARD_MILEAGE])
      (by norm_num [pyInt, STANDARD_MILEAGE])⟩

/-- **C7.** Whenever `actual_odometer < age_years * 2000`, the adjuster clamps
the deviation to `max(actual - expected, -0.3 * expected)` — so the returned
deviation is never more negative than −30% of the expected odometer — emits
the tamper-suspicion warning, and the clamped deviation is exactly the value
returned and fed to the penalty/bonus computation that yields the usage
factor. -/
theorem odometer_tamper_clamp (age_years : ℚ) (fuel_type : FuelType)
    (actual : ℤ) (h0 : 0 ≤ age_years)
    (hlow : (actual : ℚ) < age_years * 2000) :
    (calculate_odometer_adjustment age_years actual fuel_type).odometer_deviation
        = max ((actual - pyInt (age_years * (STANDARD_MILEAGE fuel_type : ℚ)) : ℤ) : ℚ)
          (-(pyInt (age_years * (STANDARD_MILEAGE fuel_type : ℚ)) : ℚ) * (3/10)) ∧
      -(pyInt (age_years * (STANDARD_MILEAGE fuel_type : ℚ)) : ℚ) * (3/10) ≤
        (calculate_odometer_adjustment age_years actual fuel_type).odometer_deviation ∧
      Msg.tamperSuspicion actual age_years ∈
        (calculate_odometer_adjustment age_years actual fuel_type).warnings ∧
      (calculate_odometer_adjustment age_years actual fuel_type).usage_factor
        = max (1 - (odometer_penalty
            (calculate_odometer_adjustment age_years actual fuel_type).odometer_deviation
            actual
            (pyInt (age_years * (STANDARD_MILEAGE fuel_type : ℚ)))).1 / 100)
          (2/5) := by
  have h1 : (calculate_odometer_adjustment age_years actual fuel_type).odometer_deviation
      = max ((actual - pyInt (age_years * (STANDARD_MILEAGE fuel_type : ℚ)) : ℤ) : ℚ)
        (-(pyInt (age_years * (STANDARD_MILEAGE fuel_type : ℚ)) : ℚ) * (3/10)) := by
    simp only [calculate_odometer_adjustment, if_pos hlow]
  have h3 : Msg.tamperSuspicion actual age_years ∈
      (calculate_odometer_adjustment age_years actual fuel_type).warnings := by
    simp only [calculate_odometer_adjustment, if_pos hlow]
    simp
  refine ⟨h1, ?_, h3, rfl⟩
  rw [h1]
  exact le_max_right _ _

/-- Witness for `odometer_tamper_clamp`: 10-year-old petrol car showing only
1000 km (`1000 < 20000`); expected is 110000, so the clamp floor is −33000. -/
theorem odometer_tamper_clamp_witness :
    (0:ℚ) ≤ 10 ∧ ((1000:ℤ) : ℚ) < 10 * 2000 ∧
      ((calculate_odometer_adjustment 10 1000 FuelType.petrol).odometer_deviation
          = max ((1000 - pyInt (10 * (STANDARD_MILEAGE FuelType.petrol : ℚ)) : ℤ) : ℚ)
            (-(pyInt (10 * (STANDARD_MILEAGE FuelType.petrol : ℚ)) : ℚ) * (3/10)) ∧
        -(pyInt (10 * (STANDARD_MILEAGE FuelType.petrol : ℚ)) : ℚ) * (3/10) ≤
          (calculate_odometer_adjustment 10 1000 FuelType.petrol).odometer_deviation ∧
        Msg.tamperSuspicion 1000 10 ∈
          (calculate_odometer_adjustment 10 1000 FuelType.petrol).warnings ∧
        (calculate_odometer_adjustment 10 1000 FuelType.petrol).usage_factor
          = max (1 - (odometer_penalty
              (calculate_odometer_adjustment 10 1000 FuelType.petrol).odometer_deviation
              1000
              (pyInt (10 * (STANDARD_MILEAGE FuelType.petrol : ℚ)))).1 / 100)
            (2/5)) :=
  ⟨by norm_num, by norm_num,
    odometer_tamper_clamp 10 FuelType.petrol 1000 (by norm_num) (by norm_num)⟩

/-- **C5.** For every `FMV > 0` the transaction price deriver returns
`C2C = FMV`, `C2B = FMV (1 − 0.12)`,
`B2C = FMV + FMV·0.12 + FMV·0.12·0.18 = FMV · 1.1416`,
`B2B = FMV (1 − 0.12 − 0.08)`, so `C2B < C2C < B2C` and `B2B ≤ C2B`; and in
the orchestrator the procurement negotiation range is
`[C2B · 0.95, C2B · 1.00]` of the C2B price derived from the final FMV. -/
theorem transaction_prices_spec (fmv : ℚ) (hfmv : 0 < fmv) :
    (calculate_transaction_prices fmv).c2c = fmv ∧
      (calculate_transaction_prices fmv).c2b = fmv * (1 - 12/100) ∧
      (calculate_transaction_prices fmv).b2c
        = fmv + fmv * (12/100) + fmv * (12/100) * (18/100) ∧
      (calculate_transaction_prices fmv).b2c = fmv * (11416/10000) ∧
      (calculate_transaction_prices fmv).b2b = fmv * (1 - 12/100 - 8/100) ∧
      (calculate_transaction_prices fmv).c2b < (calculate_transaction_prices fmv).c2c ∧
      (calculate_transaction_prices fmv).c2c < (calculate_transaction_prices fmv).b2c ∧
      (calculate_transaction_prices fmv).b2b ≤ (calculate_transaction_prices fmv).c2b ∧
      (∀ (st : EngineState) (today : ℤ) (bp : ℚ) (rwarn rrec : List Msg)
          (ms : Bool) (sm bm : ℚ) (sn : List Msg) (v : VehicleInput),
        ∃ F : ℚ,
          (valuation st today bp rwarn rrec ms sm bm sn v).fair_market_value
              = pyRound F 2 ∧
            (valuation st today bp rwarn rrec ms sm bm sn v).trade_in_price
              = pyRound (calculate_transaction_prices F).c2b 2 ∧
            (valuation st today bp rwarn rrec ms sm bm sn v).trade_in_min
              = pyRound ((calculate_transaction_prices F).c2b * (95/100)) 2 ∧
            (valuation st today bp rwarn rrec ms sm bm sn v).trade_in_max
              = pyRound ((calculate_transaction_prices F).c2b * (100/100)) 2) := by
  refine ⟨rfl, ?_, ?_, ?_, ?_, ?_, ?_, ?_, ?_⟩
  · simp only [calculate_transaction_prices, DEALER_MARGIN]
  · simp only [calculate_transaction_prices, DEALER_MARGIN, GST_RATE]
  · simp only [calculate_transaction_prices, DEALER_MARGIN, GST_RATE]
    ring
  · simp only [calculate_transaction_prices, DEALER_MARGIN, WHOLESALE_DISCOUNT]
  · simp only [calculate_transaction_prices, DEALER_MARGIN]
    nlinarith
  · simp only [calculate_transaction_prices, DEALER_MARGIN, GST_RATE]
    nlinarith
  · simp only [calculate_transaction_prices, DEALER_MARGIN, WHOLESALE_DISCOUNT]
    nlinarith
  · intro st today bp rwarn rrec ms sm bm sn v
    exact ⟨_, rfl, rfl, rfl, rfl⟩

/-- Witness for `transaction_prices_spec` at `FMV = 100000`. -/
theorem transaction_prices_spec_witness :
    (0:ℚ) < 100000 ∧
      ((calculate_transaction_prices 100000).c2c = 100000 ∧
        (calculate_transaction_prices 100000).c2b = 100000 * (1 - 12/100) ∧
        (calculate_transaction_prices 100000).b2c
          = 100000 + 100000 * (12/100) + 100000 * (12/100) * (18/100) ∧
        (calculate_transaction_prices 100000).b2c = 100000 * (11416/10000) ∧
        (calculate_transaction_prices 100000).b2b
          = 100000 * (1 - 12/100 - 8/100) ∧
        (calculate_transaction_prices 100000).c2b
          < (calculate_transaction_prices 100000).c2c ∧
        (calculate_transaction_prices 100000).c2c
          < (calculate_transaction_prices 100000).b2c ∧
        (calculate_transaction_prices 100000).b2b
          ≤ (calculate_transaction_prices 100000).c2b ∧
        (∀ (st : EngineState) (today : ℤ) (bp : ℚ) (rwarn rrec : List Msg)
            (ms : Bool) (sm bm : ℚ) (sn : List Msg) (v : VehicleInput),
          ∃ F : ℚ,
            (valuation st today bp rwarn rrec ms sm bm sn v).fair_market_value
                = pyRound F 2 ∧
              (valuation st today bp rwarn rrec ms sm bm sn v).trade_in_price
                = pyRound (calculate_transaction_prices F).c2b 2 ∧
              (valuation st today bp rwarn rrec ms sm bm sn v).trade_in_min
                = pyRound ((calculate_transaction_prices F).c2b * (95/100)) 2 ∧
              (valuation st today bp rwarn rrec ms sm bm sn v).trade_in_max
                = pyRound ((calculate_transaction_prices F).c2b * (100/100)) 2)) :=
  ⟨by norm_num, transaction_prices_spec 100000 (by norm_num)⟩

lemma smoke_scores_bounds (s : String) :
    0 ≤ smoke_scores s ∧ smoke_scores s ≤ 10 := by
  unfold smoke_scores; split_ifs <;> norm_num

lemma noise_scores_bounds (s : String) :
    0 ≤ noise_scores s ∧ noise_scores s ≤ 10 := by
  unfold noise_scores; split_ifs <;> norm_num

lemma trans_scores_bounds (s : String) :
    0 ≤ trans_scores s ∧ trans_scores s ≤ 10 := by
  unfold trans_scores; split_ifs <;> norm_num

lemma dent_scores_bounds (s : String) :
    0 ≤ dent_scores s ∧ dent_scores s ≤ 15 := by
  unfold dent_scores; split_ifs <;> norm_num

lemma susp_scores_bounds (s : String) :
    0 ≤ susp_scores s ∧ susp_scores s ≤ 5 := by
  unfold susp_scores; split_ifs <;> norm_num

lemma brake_scores_bounds (s : String) :
    0 ≤ brake_scores s ∧ brake_scores s ≤ 3 := by
  unfold brake_scores; split_ifs <;> norm_num

lemma int_scores_bounds (s : String) :
    0 ≤ int_scores s ∧ int_scores s ≤ 5 := by
  unfold int_scores; split_ifs <;> norm_num

lemma tire_score_bounds (n : ℤ) : 0 ≤ tire_score n ∧ tire_score n ≤ 7 := by
  unfold tire_score; split_ifs <;> norm_num

/-- The weighted total of `calculate_condition_score` is just the clamped sum
of the five category sub-scores (each weight divides out exactly). -/
lemma condition_total_eq (v : VehicleInput) :
    (calculate_condition_score v).1 =
      max 0 (min 100 (engineScore v + bodyScore v + mechanicalScore v +
        comfortScore v + docScore v)) := by
  simp only [calculate_condition_score]
  congr 1
  congr 1
  ring

/-- Category sub-scores other than engine ignore `frame_damage`. -/
lemma bodyScore_frame_update (v : VehicleInput) :
    bodyScore {v with frame_damage := true} = bodyScore v := rfl

lemma mechanicalScore_frame_update (v : VehicleInput) :
    mechanicalScore {v with frame_damage := true} = mechanicalScore v := rfl

lemma comfortScore_frame_update (v : VehicleInput) :
    comfortScore {v with frame_damage := true} = comfortScore v := rfl

lemma docScore_frame_update (v : VehicleInput) :
    docScore {v with frame_damage := true} = docScore v := rfl

/-- Bounds on the non-engine part of the raw total. -/
lemma nonEngine_bounds (v : VehicleInput) :
    0 ≤ bodyScore v + mechanicalScore v + comfortScore v + docScore v ∧
      bodyScore v + mechanicalScore v + comfortScore v + docScore v ≤ 65 := by
  have hd := dent_scores_bounds v.dents_scratches
  have hsu := susp_scores_bounds v.suspension_condition
  have hbr := brake_scores_bounds v.brake_condition
  have hin := int_scores_bounds v.interior_condition
  have hti := tire_score_bounds v.tire_tread
  have h1 : 0 ≤ (if v.repainted then (0:ℚ) else 5) ∧
      (if v.repainted then (0:ℚ) else 5) ≤ 5 := by split_ifs <;> norm_num
  have h2 : 0 ≤ (if v.rust_present then (0:ℚ) else 5) ∧
      (if v.rust_present then (0:ℚ) else 5) ≤ 5 := by split_ifs <;> norm_num
  have h3 : 0 ≤ (if v.ac_working then (5:ℚ) else 0) ∧
      (if v.ac_working then (5:ℚ) else 0) ≤ 5 := by split_ifs <;> norm_num
  have h4 : 0 ≤ (if v.electrical_issues then (0:ℚ) else 5) ∧
      (if v.electrical_issues then (0:ℚ) else 5) ≤ 5 := by split_ifs <;> norm_num
  have h5 : 0 ≤ (if v.service_history then (5:ℚ) else 0) ∧
      (if v.service_history then (5:ℚ) else 0) ≤ 5 := by split_ifs <;> norm_num
  have h6 : 0 ≤ (if v.insurance_valid then (3:ℚ) else 0) ∧
      (if v.insurance_valid then (3:ℚ) else 0) ≤ 3 := by split_ifs <;> norm_num
  have h7 : 0 ≤ (if v.accident_history then (0:ℚ) else 2) ∧
      (if v.accident_history then (0:ℚ) else 2) ≤ 2 := by split_ifs <;> norm_num
  unfold bodyScore mechanicalScore comfortScore docScore
  constructor <;>
    linarith [hd.1, hd.2, hsu.1, hsu.2, hbr.1, hbr.2, hin.1, hin.2, hti.1,
      hti.2, h1.1, h1.2, h2.1, h2.2, h3.1, h3.2, h4.1, h4.2, h5.1, h5.2,
      h6.1, h6.2, h7.1, h7.2]

/-- A 16-field best-value inspection scores exactly 100, grade Excellent. -/
lemma perfect_condition_score (v : VehicleInput)
    (h1 : v.frame_damage = false) (h2 : v.dents_scratches = "None")
    (h3 : v.repainted = false) (h4 : v.rust_present = false)
    (h5 : v.engine_smoke = "None") (h6 : v.engine_noise = "Normal")
    (h7 : v.transmission_condition = "Smooth") (h8 : 75 ≤ v.tire_tread)
    (h9 : v.suspension_condition = "Excellent")
    (h10 : v.brake_condition = "Excellent")
    (h11 : v.interior_condition = "Excellent") (h12 : v.ac_working = true)
    (h13 : v.electrical_issues = false) (h14 : v.service_history = true)
    (h15 : v.insurance_valid = true) (h16 : v.accident_history = false) :
    (calculate_condition_score v).1 = 100 ∧
      (calculate_condition_score v).2.1 = ConditionGrade.excellent := by
  have hE : engineScore v = 35 := by
    simp [engineScore, h1, h5, h6, h7, smoke_scores, noise_scores, trans_scores]
    norm_num
  have hB : bodyScore v = 25 := by
    simp [bodyScore, h2, h3, h4, dent_scores]
    norm_num
  have hM : mechanicalScore v = 15 := by
    simp [mechanicalScore, h9, h10, susp_scores, brake_scores, tire_score,
      if_pos h8]
    norm_num
  have hC : comfortScore v = 15 := by
    simp [comfortScore, h11, h12, h13, int_scores]
    norm_num
  have hD : docScore v = 10 := by
    simp [docScore, h14, h15, h16]
    norm_num
  have hraw : engineScore v / 35 * 35 + bodyScore v / 25 * 25 +
      mechanicalScore v / 15 * 15 + comfortScore v / 15 * 15 +
      docScore v / 10 * 10 = 100 := by
    rw [hE, hB, hM, hC, hD]; norm_num
  constructor
  · simp only [calculate_condition_score, hraw]
    norm_num
  · simp only [calculate_condition_score, hraw]
    norm_num

/-- Frame damage flips the engine contribution from `+5` to `−20`, lowering
the engine sub-score by 25 and the (clamped) total strictly. -/
lemma frame_damage_strictly_lowers (v : VehicleInput)
    (hfd : v.frame_damage = false) :
    engineScore {v with frame_damage := true} < engineScore v ∧
      (calculate_condition_score {v with frame_damage := true}).1 <
        (calculate_condition_score v).1 := by
  have hsm := smoke_scores_bounds v.engine_smoke
  have hno := noise_scores_bounds v.engine_noise
  have htr := trans_scores_bounds v.transmission_condition
  have hEd : engineScore {v with frame_damage := true} =
      -20 + (smoke_scores v.engine_smoke + noise_scores v.engine_noise +
        trans_scores v.transmission_condition) := by
    simp [engineScore]
    ring
  have hEv : engineScore v =
      5 + (smoke_scores v.engine_smoke + noise_scores v.engine_noise +
        trans_scores v.transmission_condition) := by
    simp [engineScore, hfd]
    ring
  have hne := nonEngine_bounds v
  refine ⟨by linarith, ?_⟩
  rw [condition_total_eq, condition_total_eq, bodyScore_frame_update,
    mechanicalScore_frame_update, comfortScore_frame_update,
    docScore_frame_update, hEd, hEv]
  set X := smoke_scores v.engine_smoke + noise_scores v.engine_noise +
    trans_scores v.transmission_condition + (bodyScore v + mechanicalScore v +
      comfortScore v + docScore v) with hX
  have hX0 : 0 ≤ X := by
    simp only [hX]
    linarith [hsm.1, hno.1, htr.1, hne.1]
  have hX95 : X ≤ 95 := by
    simp only [hX]
    linarith [hsm.2, hno.2, htr.2, hne.2]
  have hL : -20 + (smoke_scores v.engine_smoke + noise_scores v.engine_noise +
      trans_scores v.transmission_condition) + bodyScore v +
      mechanicalScore v + comfortScore v + docScore v = -20 + X := by
    simp only [hX]; ring
  have hR : 5 + (smoke_scores v.engine_smoke + noise_scores v.engine_noise +
      trans_scores v.transmission_condition) + bodyScore v +
      mechanicalScore v + comfortScore v + docScore v = 5 + X := by
    simp only [hX]; ring
  rw [hL, hR]
  have hminR : min 100 (5 + X) = 5 + X := min_eq_right (by linarith)
  have hmaxR : max 0 (5 + X) = 5 + X := max_eq_right (by linarith)
  have hminL : min 100 (-20 + X) = -20 + X := min_eq_right (by linarith)
  rw [hminR, hmaxR, hminL]
  rcases le_or_lt X 20 with hc | hc
  · rw [max_eq_left (by linarith)]
    linarith
  · rw [max_eq_right (by linarith)]
    linarith

/-- **C6.** A `VehicleInput` with all 16 inspection fields at their best value
scores exactly 100 with grade Excellent; and between two inputs identical
except for `frame_damage`, the damaged one has a strictly lower
engine-category sub-score and a strictly lower total score. -/
theorem condition_score_best_and_frame_damage :
    (∀ v : VehicleInput,
      v.frame_damage = false → v.dents_scratches = "None" →
      v.repainted = false → v.rust_present = false →
      v.engine_smoke = "None" → v.engine_noise = "Normal" →
      v.transmission_condition = "Smooth" → 75 ≤ v.tire_tread →
      v.suspension_condition = "Excellent" → v.brake_condition = "Excellent" →
      v.interior_condition = "Excellent" → v.ac_working = true →
      v.electrical_issues = false → v.service_history = true →
      v.insurance_valid = true → v.accident_history = false →
      (calculate_condition_score v).1 = 100 ∧
        (calculate_condition_score v).2.1 = ConditionGrade.excellent) ∧
    (∀ v : VehicleInput, v.frame_damage = false →
      engineScore {v with frame_damage := true} < engineScore v ∧
        (calculate_condition_score {v with frame_damage := true}).1 <
          (calculate_condition_score v).1) :=
  ⟨perfect_condition_score, frame_damage_strictly_lowers⟩

/-- Witness for `condition_score_best_and_frame_damage` on `bestSwift`. -/
theorem condition_score_best_and_frame_damage_witness :
    ((calculate_condition_score bestSwift).1 = 100 ∧
      (calculate_condition_score bestSwift).2.1 = ConditionGrade.excellent) ∧
    (engineScore {bestSwift with frame_damage := true}
        < engineScore bestSwift ∧
      (calculate_condition_score {bestSwift with frame_damage := true}).1
        < (calculate_condition_score bestSwift).1) :=
  ⟨condition_score_best_and_frame_damage.1 bestSwift rfl rfl rfl rfl rfl rfl
      rfl (by norm_num [bestSwift]) rfl rfl rfl rfl rfl rfl rfl rfl,
    condition_score_best_and_frame_damage.2 bestSwift rfl⟩

lemma smoke_scores_default {s : String} (h1 : s ≠ "None") (h2 : s ≠ "White")
    (h3 : s ≠ "Black") : smoke_scores s = 5 := by
  unfold smoke_scores
  rw [if_neg h1, if_neg h2, if_neg h3]

lemma noise_scores_default {s : String} (h1 : s ≠ "Normal") (h2 : s ≠ "Slight")
    (h3 : s ≠ "Heavy") : noise_scores s = 5 := by
  unfold noise_scores
  rw [if_neg h1, if_neg h2, if_neg h3]

lemma trans_scores_default {s : String} (h1 : s ≠ "Smooth") (h2 : s ≠ "Rough")
    (h3 : s ≠ "Slipping") : trans_scores s = 5 := by
  unfold trans_scores
  rw [if_neg h1, if_neg h2, if_neg h3]

lemma dent_scores_default {s : String} (h1 : s ≠ "None") (h2 : s ≠ "Minor")
    (h3 : s ≠ "Moderate") (h4 : s ≠ "Severe") : dent_scores s = 7 := by
  unfold dent_scores
  rw [if_neg h1, if_neg h2, if_neg h3, if_neg h4]

lemma susp_scores_default {s : String} (h1 : s ≠ "Excellent") (h2 : s ≠ "Good")
    (h3 : s ≠ "Fair") (h4 : s ≠ "Poor") : susp_scores s = 2 := by
  unfold susp_scores
  rw [if_neg h1, if_neg h2, if_neg h3, if_neg h4]

lemma brake_scores_default {s : String} (h1 : s ≠ "Excellent")
    (h2 : s ≠ "Good") (h3 : s ≠ "Fair") (h4 : s ≠ "Poor") :
    brake_scores s = 1 := by
  unfold brake_scores
  rw [if_neg h1, if_neg h2, if_neg h3, if_neg h4]

lemma int_scores_default {s : String} (h1 : s ≠ "Excellent") (h2 : s ≠ "Good")
    (h3 : s ≠ "Fair") (h4 : s ≠ "Poor") : int_scores s = 2 := by
  unfold int_scores
  rw [if_neg h1, if_neg h2, if_neg h3, if_neg h4]

/-- The clamped total always lies in `[0, 100]`, whatever the input record. -/
lemma condition_score_range (v : VehicleInput) :
    0 ≤ (calculate_condition_score v).1 ∧
      (calculate_condition_score v).1 ≤ 100 := by
  simp only [calculate_condition_score]
  exact ⟨le_max_left _ _, max_le (by norm_num) (min_le_left _ _)⟩

/-- With a smoke value outside `{White, Black}` the scorer never emits an
engine-smoke warning. -/
lemma no_smoke_warning (v : VehicleInput) (hW : v.engine_smoke ≠ "White")
    (hB : v.engine_smoke ≠ "Black") :
    ∀ s, Msg.engineSmoke s ∉ (calculate_condition_score v).2.2.2 := by
  intro s
  have heq : (calculate_condition_score v).2.2.2 = conditionWarnings v := rfl
  rw [heq]
  unfold conditionWarnings
  have hcond : ¬(v.engine_smoke = "White" ∨ v.engine_smoke = "Black") := by
    rintro (h | h)
    exacts [hW h, hB h]
  rw [if_neg hcond]
  split_ifs <;> simp

/-- **C10.** The condition scorer is total over arbitrary strings in its
graded inspection fields: any string outside the documented value set is
silently mapped (via `dict.get` defaults) to a fixed mid-range point value —
5 for engine smoke, 5 for engine noise, 5 for transmission, 7 for
dents/scratches, 2 for suspension, 1 for brakes, 2 for interior — with no
warning raised for the unknown value, and the scorer still returns an
in-range score, a grade, and the full breakdown containing those defaults. -/
theorem condition_unknown_string_defaults :
    (∀ s : String, s ≠ "None" → s ≠ "White" → s ≠ "Black" →
      smoke_scores s = 5) ∧
    (∀ s : String, s ≠ "Normal" → s ≠ "Slight" → s ≠ "Heavy" →
      noise_scores s = 5) ∧
    (∀ s : String, s ≠ "Smooth" → s ≠ "Rough" → s ≠ "Slipping" →
      trans_scores s = 5) ∧
    (∀ s : String, s ≠ "None" → s ≠ "Minor" → s ≠ "Moderate" → s ≠ "Severe" →
      dent_scores s = 7) ∧
    (∀ s : String, s ≠ "Excellent" → s ≠ "Good" → s ≠ "Fair" → s ≠ "Poor" →
      susp_scores s = 2) ∧
    (∀ s : String, s ≠ "Excellent" → s ≠ "Good" → s ≠ "Fair" → s ≠ "Poor" →
      brake_scores s = 1) ∧
    (∀ s : String, s ≠ "Excellent" → s ≠ "Good" → s ≠ "Fair" → s ≠ "Poor" →
      int_scores s = 2) ∧
    (∀ v : VehicleInput,
      v.engine_smoke ≠ "None" → v.engine_smoke ≠ "White" →
      v.engine_smoke ≠ "Black" →
      v.dents_scratches ≠ "None" → v.dents_scratches ≠ "Minor" →
      v.dents_scratches ≠ "Moderate" → v.dents_scratches ≠ "Severe" →
      ((calculate_condition_score v).2.2.1.lookup "engine_smoke"
          = some (smoke_scores v.engine_smoke) ∧
        (calculate_condition_score v).2.2.1.lookup "engine_smoke" = some 5 ∧
        (calculate_condition_score v).2.2.1.lookup "dents_scratches"
          = some 7) ∧
      (∀ s, Msg.engineSmoke s ∉ (calculate_condition_score v).2.2.2) ∧
      (0 ≤ (calculate_condition_score v).1 ∧
        (calculate_condition_score v).1 ≤ 100)) := by
  refine ⟨fun s => smoke_scores_default, fun s => noise_scores_default,
    fun s => trans_scores_default, fun s => dent_scores_default,
    fun s => susp_scores_default, fun s => brake_scores_default,
    fun s => int_scores_default, ?_⟩
  intro v hs1 hs2 hs3 hd1 hd2 hd3 hd4
  refine ⟨⟨?_, ?_, ?_⟩, no_smoke_warning v hs2 hs3, condition_score_range v⟩
  · simp [conditionBreakdown, List.lookup, calculate_condition_score]
  · simp [conditionBreakdown, List.lookup, calculate_condition_score,
      smoke_scores_default hs1 hs2 hs3]
  · simp [conditionBreakdown, List.lookup, calculate_condition_score,
      dent_scores_default hd1 hd2 hd3 hd4]

/-- Witness for `condition_unknown_string_defaults` on unknown strings and on
`weirdVehicle`, whose graded fields are all outside the documented sets. -/
theorem condition_unknown_string_defaults_witness :
    smoke_scores "Purple" = 5 ∧ noise_scores "Odd" = 5 ∧
    trans_scores "Weird" = 5 ∧ dent_scores "Many" = 7 ∧
    susp_scores "Meh" = 2 ∧ brake_scores "Soso" = 1 ∧
    int_scores "Tired" = 2 ∧
    (((calculate_condition_score weirdVehicle).2.2.1.lookup "engine_smoke"
        = some (smoke_scores weirdVehicle.engine_smoke) ∧
      (calculate_condition_score weirdVehicle).2.2.1.lookup "engine_smoke"
        = some 5 ∧
      (calculate_condition_score weirdVehicle).2.2.1.lookup "dents_scratches"
        = some 7) ∧
    (∀ s, Msg.engineSmoke s ∉ (calculate_condition_score weirdVehicle).2.2.2) ∧
    (0 ≤ (calculate_condition_score weirdVehicle).1 ∧
      (calculate_condition_score weirdVehicle).1 ≤ 100)) :=
  ⟨condition_unknown_string_defaults.1 "Purple" (by decide) (by decide)
      (by decide),
    condition_unknown_string_defaults.2.1 "Odd" (by decide) (by decide)
      (by decide),
    condition_unknown_string_defaults.2.2.1 "Weird" (by decide) (by decide)
      (by decide),
    condition_unknown_string_defaults.2.2.2.1 "Many" (by decide) (by decide)
      (by decide) (by decide),
    condition_unknown_string_defaults.2.2.2.2.1 "Meh" (by decide) (by decide)
      (by decide) (by decide),
    condition_unknown_string_defaults.2.2.2.2.2.1 "Soso" (by decide)
      (by decide) (by decide) (by decide),
    condition_unknown_string_defaults.2.2.2.2.2.2.1 "Tired" (by decide)
      (by decide) (by decide) (by decide),
    condition_unknown_string_defaults.2.2.2.2.2.2.2 weirdVehicle (by decide)
      (by decide) (by decide) (by decide) (by decide) (by decide) (by decide)⟩

/-- **C8 (counterexample).** For a year absent from the schedule (2014) with
state `telangana`, the road tax is `ex_showroom × 12.5%` — the 2025 entry —
not the claimed 12% default: at `ex_showroom = 800000` the road tax is
100000, while 12% would give 96000. -/
theorem on_road_tax_fallback_counterexample :
    (calculate_on_road_price 800000 2014 "telangana").2.road_tax = 100000 ∧
      ¬(calculate_on_road_price 800000 2014 "telangana").2.road_tax
          = 800000 * (12/100) := by
  have hlow : pyLower "telangana" = "telangana" := by decide
  have hlk : TELANGANA_TAX_RATES.lookup (2014:ℤ) = none := by
    simp [TELANGANA_TAX_RATES, List.lookup]
  have hrt : (calculate_on_road_price 800000 2014 "telangana").2.road_tax
      = 100000 := by
    simp only [calculate_on_road_price, hlow, telangana_tax_rate, hlk]
    norm_num
  exact ⟨hrt, by rw [hrt]; norm_num⟩

/-- **C8 (amended).** The road-tax rate is looked up per purchase year from
the fixed Telangana schedule; for a state other than telangana the flat 12%
default applies; for a telangana year absent from the schedule the fallback
is the most recent (2025) entry's rate, 12.5% — not 12%. -/
theorem on_road_tax_schedule (ex : ℚ) (year : ℤ) (state : String)
    (hex : 0 < ex) :
    (pyLower state ≠ "telangana" →
      (calculate_on_road_price ex year state).2.road_tax = ex * (12/100)) ∧
      ((year < 2015 ∨ 2025 < year) →
        (calculate_on_road_price ex year "telangana").2.road_tax
          = ex * (125/1000)) ∧
      (∀ r : ℚ, TELANGANA_TAX_RATES.lookup year = some r →
        (calculate_on_road_price ex year "telangana").2.road_tax = ex * r) := by
  have hlow : pyLower "telangana" = "telangana" := by decide
  refine ⟨?_, ?_, ?_⟩
  · intro h
    simp only [calculate_on_road_price]
    rw [if_neg h]
  · intro h
    have h15 : ((year == (2015:ℤ))) = false := beq_eq_false_iff_ne.mpr (by omega)
    have h16 : ((year == (2016:ℤ))) = false := beq_eq_false_iff_ne.mpr (by omega)
    have h17 : ((year == (2017:ℤ))) = false := beq_eq_false_iff_ne.mpr (by omega)
    have h18 : ((year == (2018:ℤ))) = false := beq_eq_false_iff_ne.mpr (by omega)
    have h19 : ((year == (2019:ℤ))) = false := beq_eq_false_iff_ne.mpr (by omega)
    have h20 : ((year == (2020:ℤ))) = false := beq_eq_false_iff_ne.mpr (by omega)
    have h21 : ((year == (2021:ℤ))) = false := beq_eq_false_iff_ne.mpr (by omega)
    have h22 : ((year == (2022:ℤ))) = false := beq_eq_false_iff_ne.mpr (by omega)
    have h23 : ((year == (2023:ℤ))) = false := beq_eq_false_iff_ne.mpr (by omega)
    have h24 : ((year == (2024:ℤ))) = false := beq_eq_false_iff_ne.mpr (by omega)
    have h25 : ((year == (2025:ℤ))) = false := beq_eq_false_iff_ne.mpr (by omega)
    have hlk : TELANGANA_TAX_RATES.lookup year = none := by
      simp [TELANGANA_TAX_RATES, List.lookup, h15, h16, h17, h18, h19, h20,
        h21, h22, h23, h24, h25]
    simp only [calculate_on_road_price, hlow, telangana_tax_rate, hlk]
    simp
  · intro r hr
    simp only [calculate_on_road_price, hlow, telangana_tax_rate, hr]
    simp

/-- Witness for `on_road_tax_schedule` at `ex = 800000`, `year = 2014`,
`state = "Karnataka"`. -/
theorem on_road_tax_schedule_witness :
    (0:ℚ) < 800000 ∧
      ((pyLower "Karnataka" ≠ "telangana" →
        (calculate_on_road_price 800000 2014 "Karnataka").2.road_tax
          = 800000 * (12/100)) ∧
      (((2014:ℤ) < 2015 ∨ (2025:ℤ) < 2014) →
        (calculate_on_road_price 800000 2014 "telangana").2.road_tax
          = 800000 * (125/1000)) ∧
      (∀ r : ℚ, TELANGANA_TAX_RATES.lookup (2014:ℤ) = some r →
        (calculate_on_road_price 800000 2014 "telangana").2.road_tax
          = 800000 * r)) :=
  ⟨by norm_num, on_road_tax_schedule 800000 2014 "Karnataka" (by norm_num)⟩

/-- **C1 (counterexample).** The valuation call does not reject invalid
input: on a `VehicleInput` with odometer `−5`, owner count `0` and tire tread
`150`, it produces a full `ValuationResult` — base price passed through,
ownership multiplier silently defaulted to 0.75, expected odometer computed,
and the tamper warning surfaced as a warning rather than an error. -/
theorem valuation_accepts_invalid_input :
    (invalidVehicle.odometer < 0 ∧ invalidVehicle.owners < 1 ∧
        100 < invalidVehicle.tire_tread) ∧
      (valuation ⟨[], []⟩ 1461 1000000 [] [] false 1 1 []
          invalidVehicle).base_price = 1000000 ∧
      (valuation ⟨[], []⟩ 1461 1000000 [] [] false 1 1 []
          invalidVehicle).ownership_multiplier = 3/4 ∧
      (valuation ⟨[], []⟩ 1461 1000000 [] [] false 1 1 []
          invalidVehicle).expected_odometer = 44000 ∧
      Msg.tamperSuspicion (-5) 4 ∈
        (valuation ⟨[], []⟩ 1461 1000000 [] [] false 1 1 []
          invalidVehicle).warnings := by
  have hage : calculate_vehicle_age (0:ℤ) 1461 = 4 := by
    norm_num [calculate_vehicle_age]
  refine ⟨by decide, ?_, ?_, ?_, ?_⟩
  · show pyRound (1000000:ℚ) 2 = 1000000
    norm_num [pyRound, roundHalfEven]
  · show pyRound (calculate_ownership_factor invalidVehicle.owners) 2 = 3/4
    norm_num [invalidVehicle, calculate_ownership_factor, pyRound,
      roundHalfEven]
  · simp only [valuation, calculate_odometer_adjustment, invalidVehicle, hage]
    norm_num [pyInt, STANDARD_MILEAGE]
  · simp only [valuation, calculate_odometer_adjustment, invalidVehicle, hage]
    rw [if_pos (by norm_num : ((-5:ℤ):ℚ) < 4 * 2000)]
    simp

/-- **C1 (amended).** The engine performs no input validation: for every
`VehicleInput` with negative odometer, owner count < 1, or tire tread outside
`[0,100]`, `valuation` still runs the normal pipeline and returns a full
`ValuationResult` — the injected base price is passed through (rounded), the
ownership multiplier comes from the table lookup whose default (0.75) absorbs
any owner count outside 1-4, and the condition grade is the scorer's
untouched output. -/
theorem valuation_no_input_validation (st : EngineState) (today : ℤ) (bp : ℚ)
    (rwarn rrec : List Msg) (ms : Bool) (sm bm : ℚ) (sn : List Msg)
    (v : VehicleInput)
    (hinv : v.odometer < 0 ∨ v.owners < 1 ∨ v.tire_tread < 0 ∨
      100 < v.tire_tread) :
    (valuation st today bp rwarn rrec ms sm bm sn v).base_price
        = pyRound bp 2 ∧
      (valuation st today bp rwarn rrec ms sm bm sn v).ownership_multiplier
        = pyRound (calculate_ownership_factor v.owners) 2 ∧
      (v.owners < 1 →
        (valuation st today bp rwarn rrec ms sm bm sn v).ownership_multiplier
          = 3/4) ∧
      (valuation st today bp rwarn rrec ms sm bm sn v).condition_grade
        = (calculate_condition_score v).2.1 := by
  refine ⟨rfl, rfl, ?_, rfl⟩
  intro h
  have hof : calculate_ownership_factor v.owners = 75/100 := by
    unfold calculate_ownership_factor
    rw [if_neg (by omega), if_neg (by omega), if_neg (by omega),
      if_neg (by omega)]
  show pyRound (calculate_ownership_factor v.owners) 2 = 3/4
  rw [hof]
  norm_num [pyRound, roundHalfEven]

/-- Witness for `valuation_no_input_validation` on `invalidVehicle`. -/
theorem valuation_no_input_validation_witness :
    ((invalidVehicle.odometer < 0 ∨ invalidVehicle.owners < 1 ∨
        invalidVehicle.tire_tread < 0 ∨ 100 < invalidVehicle.tire_tread) ∧
      ((valuation ⟨[], []⟩ 1461 500000 [] [] false 1 1 []
            invalidVehicle).base_price = pyRound 500000 2 ∧
        (valuation ⟨[], []⟩ 1461 500000 [] [] false 1 1 []
            invalidVehicle).ownership_multiplier
          = pyRound (calculate_ownership_factor invalidVehicle.owners) 2 ∧
        (invalidVehicle.owners < 1 →
          (valuation ⟨[], []⟩ 1461 500000 [] [] false 1 1 []
              invalidVehicle).ownership_multiplier = 3/4) ∧
        (valuation ⟨[], []⟩ 1461 500000 [] [] false 1 1 []
            invalidVehicle).condition_grade
          = (calculate_condition_score invalidVehicle).2.1)) :=
  ⟨by decide,
    valuation_no_input_validation ⟨[], []⟩ 1461 500000 [] [] false 1 1 []
      invalidVehicle (by decide)⟩

/-- **C9.** With the ambient date (`today`), the resolver output and the
sentiment-analyzer output held fixed, `valuation` is a pure function of the
`VehicleInput` that is independent of the engine's accumulator state — the
call resets `self.warnings`/`self.recommendations` first — so calling it
twice with the same input yields bit-identical `ValuationResult`s; the only
time dependency is the explicit `today` parameter used for the age
calculation. -/
theorem valuation_state_independent (s₁ s₂ : EngineState) (today : ℤ)
    (bp : ℚ) (rwarn rrec : List Msg) (ms : Bool) (sm bm : ℚ) (sn : List Msg)
    (v : VehicleInput) :
    valuation s₁ today bp rwarn rrec ms sm bm sn v
      = valuation s₂ today bp rwarn rrec ms sm bm sn v := rfl

end OBV
